import Mathlib

/-!
# Verification of the Dump1090 Mode S receiver core

Shallow embedding, in Lean 4, of the core signal-to-message pipeline of the
Dump1090 Mode S / ADS-B receiver (sources `src/dump1090.c`,
`src/interactive.c`, `src/misc.c`, `src/aircraft.h`), together with theorems
settling the frozen specification claims.

Modelling conventions:
* frames and byte buffers are `List ℕ` with each byte below 256 where needed;
  out-of-range reads use the C buffer default 0 via `List.getD`;
* C `uint32_t` arithmetic is `ℕ` with an explicit `% 2^32` where overflow can
  occur; C `int` values that can be negative are `ℤ`;
* C `double` arithmetic in the CPR decoder is exact `ℚ` arithmetic (every
  operation used there - `+ - * /`, `floor`, comparisons against decimal
  literals - is exact on the values involved);
* the magnitude table generator `round (360 * hypot (I, Q))` is embedded by
  the executable integer form `(Nat.sqrt (4 * 360^2 * (I^2 + Q^2)) + 1) / 2`;
  the C3 theorem proves this equals the mathematical `round (360 * √(I²+Q²))`
  (ties are impossible, so the real rounding is unambiguous);
* statistics counters, debug output and display-only fields (metric unit,
  DR/UM status, the `atan2`-based numeric heading) are not part of any claim
  and are omitted from the embedding;
* `aircraft_find_or_create` and `aircraft_get_addr` live in `aircraft.c`,
  which is not under `src/`; they are modelled from the spec where noted.
-/

namespace Dump1090

/-- `MODES_LONG_MSG_BITS`: number of bits of a long Mode S frame. -/
def MODES_LONG_MSG_BITS : ℕ := 112

/-- `MODES_SHORT_MSG_BITS`: number of bits of a short Mode S frame. -/
def MODES_SHORT_MSG_BITS : ℕ := 56

/-- `MODES_PREAMBLE_US`: preamble length in microseconds.  The value 8 is
pinned by the source itself: `apply_phase_correction` skips the preamble with
`m += 16` while its caller passes `m + j` and saves `m + j + MODES_PREAMBLE_US*2`. -/
def MODES_PREAMBLE_US : ℕ := 8

/-- `MODES_FULL_LEN`: preamble plus long-message length in microseconds. -/
def MODES_FULL_LEN : ℕ := MODES_PREAMBLE_US + MODES_LONG_MSG_BITS

/-- Modelled from the spec: the recent-ICAO-addresses cache is "a fixed-size
open-addressed table ... sized to a power of two".  The constant itself is
defined in a header that is not under `src/`; the repository value is 1024. -/
def MODES_ICAO_CACHE_LEN : ℕ := 1024

/-- Modelled from the spec: an address is recently seen iff
`now - stored_ts ≤ TTL (default 60 s)`.  The constant is defined in a header
that is not under `src/`. -/
def MODES_ICAO_CACHE_TTL : ℕ := 60

/-- The 112-entry Mode S parity table `modeS_checksum_table` of
`src/dump1090.c`; the last 24 entries are zero. -/
def modeS_checksum_table_list : List ℕ :=
  [0x3935EA, 0x1C9AF5, 0xF1B77E, 0x78DBBF, 0xC397DB, 0x9E31E9, 0xB0E2F0, 0x587178,
   0x2C38BC, 0x161C5E, 0x0B0E2F, 0xFA7D13, 0x82C48D, 0xBE9842, 0x5F4C21, 0xD05C14,
   0x682E0A, 0x341705, 0xE5F186, 0x72F8C3, 0xC68665, 0x9CB936, 0x4E5C9B, 0xD8D449,
   0x939020, 0x49C810, 0x24E408, 0x127204, 0x093902, 0x049C81, 0xFDB444, 0x7EDA22,
   0x3F6D11, 0xE04C8C, 0x702646, 0x381323, 0xE3F395, 0x8E03CE, 0x4701E7, 0xDC7AF7,
   0x91C77F, 0xB719BB, 0xA476D9, 0xADC168, 0x56E0B4, 0x2B705A, 0x15B82D, 0xF52612,
   0x7A9309, 0xC2B380, 0x6159C0, 0x30ACE0, 0x185670, 0x0C2B38, 0x06159C, 0x030ACE,
   0x018567, 0xFF38B7, 0x80665F, 0xBFC92B, 0xA01E91, 0xAFF54C, 0x57FAA6, 0x2BFD53,
   0xEA04AD, 0x8AF852, 0x457C29, 0xDD4410, 0x6EA208, 0x375104, 0x1BA882, 0x0DD441,
   0xF91024, 0x7C8812, 0x3E4409, 0xE0D800, 0x706C00, 0x383600, 0x1C1B00, 0x0E0D80,
   0x0706C0, 0x038360, 0x01C1B0, 0x00E0D8, 0x00706C, 0x003836, 0x001C1B, 0xFFF409,
   0x000000, 0x000000, 0x000000, 0x000000, 0x000000, 0x000000, 0x000000, 0x000000,
   0x000000, 0x000000, 0x000000, 0x000000, 0x000000, 0x000000, 0x000000, 0x000000,
   0x000000, 0x000000, 0x000000, 0x000000, 0x000000, 0x000000, 0x000000, 0x000000]

/-- Table lookup, index clamped by the C array read (in-range in all uses). -/
def modeS_checksum_table (i : ℕ) : ℕ := modeS_checksum_table_list.getD i 0

/-- The bit test `msg[j/8] & (1 << (7 - j%8))` of `modeS_checksum`. -/
def msgBit (msg : List ℕ) (j : ℕ) : Bool :=
  (msg.getD (j / 8) 0) &&& (1 <<< (7 - j % 8)) != 0

/-- The table offset of `modeS_checksum`: 56 for short frames, 0 for long. -/
def checksum_offset (bits : ℕ) : ℕ :=
  if bits ≠ MODES_LONG_MSG_BITS then MODES_LONG_MSG_BITS - MODES_SHORT_MSG_BITS else 0

/-- `modeS_checksum (msg, bits)` of `src/dump1090.c`: XOR of the table entries
whose message bit is set. -/
def modeS_checksum (msg : List ℕ) (bits : ℕ) : ℕ :=
  (List.range bits).foldl
    (fun crc j =>
      if msgBit msg j then crc ^^^ modeS_checksum_table (j + checksum_offset bits) else crc)
    0

/-- The trailing 24 bits of a frame,
`(msg[n-3] << 16) | (msg[n-2] << 8) | msg[n-1]` with `n = bits/8`,
as read in `fix_single_bit_errors` and `decode_modeS_message`. -/
def crc_trailing (msg : List ℕ) (bits : ℕ) : ℕ :=
  ((msg.getD (bits / 8 - 3) 0) <<< 16) |||
  ((msg.getD (bits / 8 - 2) 0) <<< 8) |||
  (msg.getD (bits / 8 - 1) 0)

/-- The CRC check used throughout the source: the computed checksum equals the
trailing 24 bits. -/
def modeS_check (msg : List ℕ) (bits : ℕ) : Bool :=
  crc_trailing msg bits == modeS_checksum msg bits

/-- Flip bit `i` of a frame: `msg[i/8] ^= 1 << (7 - i%8)`. -/
def flipBit (msg : List ℕ) (i : ℕ) : List ℕ :=
  msg.set (i / 8) ((msg.getD (i / 8) 0) ^^^ (1 <<< (7 - i % 8)))

/-- `fix_single_bit_errors (msg, bits)` of `src/dump1090.c`: try flipping each
bit in order; on the first flip whose frame passes the CRC check, return the
bit index and the rewritten buffer; otherwise return -1 and the buffer
untouched. -/
def fix_single_bit_errors (msg : List ℕ) (bits : ℕ) : ℤ × List ℕ :=
  match (List.range bits).find? (fun i => modeS_check (flipBit msg i) bits) with
  | some i => ((i : ℤ), flipBit msg i)
  | none => (-1, msg)

/-- The ordered list of bit pairs `(j, i)` with `j < i < bits` tried by
`fix_two_bits_errors`. -/
def bitPairs (bits : ℕ) : List (ℕ × ℕ) :=
  (List.range bits).flatMap
    (fun j => (List.range bits).filterMap (fun i => if j < i then some (j, i) else none))

/-- `fix_two_bits_errors (msg, bits)` of `src/dump1090.c`: same over unordered
bit pairs, encoding the pair as `j | (i << 8)`. -/
def fix_two_bits_errors (msg : List ℕ) (bits : ℕ) : ℤ × List ℕ :=
  match (bitPairs bits).find? (fun p => modeS_check (flipBit (flipBit msg p.1) p.2) bits) with
  | some p => (((p.1 ||| (p.2 <<< 8) : ℕ) : ℤ), flipBit (flipBit msg p.1) p.2)
  | none => (-1, msg)

/-- Write a 24-bit checksum into the trailing 3 bytes of a frame (the
"append the result as the trailing 24 bits" operation of the spec). -/
def writeCRC (msg : List ℕ) (bits c : ℕ) : List ℕ :=
  ((msg.set (bits / 8 - 3) ((c >>> 16) &&& 255)).set
    (bits / 8 - 2) ((c >>> 8) &&& 255)).set
    (bits / 8 - 1) (c &&& 255)

/-- `modeS_message_len_by_type`: 112 bits for DF 16, 17, 19, 20, 21, else 56. -/
def modeS_message_len_by_type (t : ℕ) : ℕ :=
  if t = 16 ∨ t = 17 ∨ t = 19 ∨ t = 20 ∨ t = 21 then MODES_LONG_MSG_BITS
  else MODES_SHORT_MSG_BITS

/-- C `uint32_t` truncation. -/
def u32 (x : ℕ) : ℕ := x % 2 ^ 32

/-- `ICAO_cache_hash_address` of `src/dump1090.c`: two rounds of
`a = ((a >> 16) ^ a) * 0x45D9F3B`, one final `a = (a >> 16) ^ a` (with no
multiplication), masked to the table size. -/
def ICAO_cache_hash_address (a : ℕ) : ℕ :=
  let a1 := u32 (((a >>> 16) ^^^ a) * 0x45D9F3B)
  let a2 := u32 (((a1 >>> 16) ^^^ a1) * 0x45D9F3B)
  let a3 := (a2 >>> 16) ^^^ a2
  a3 &&& (MODES_ICAO_CACHE_LEN - 1)

/-- The hash the spec text describes for the ICAO cache, written from the
spec's words for comparison with `ICAO_cache_hash_address`: three full rounds
of `((x >> 16) ^ x) * 0x45D9F3B`, masked to the table size. -/
def spec_hash_three_rounds (a : ℕ) : ℕ :=
  let a1 := u32 (((a >>> 16) ^^^ a) * 0x45D9F3B)
  let a2 := u32 (((a1 >>> 16) ^^^ a1) * 0x45D9F3B)
  let a3 := u32 (((a2 >>> 16) ^^^ a2) * 0x45D9F3B)
  a3 &&& (MODES_ICAO_CACHE_LEN - 1)

/-- The ICAO cache `Modes.ICAO_cache`: a flat array of `2 * LEN` 32-bit words,
`cache[2h]` the address and `cache[2h+1]` its unix timestamp. -/
def ICAO_cache_add_address (cache : ℕ → ℕ) (addr t : ℕ) : ℕ → ℕ :=
  fun k =>
    if k = 2 * ICAO_cache_hash_address addr then addr
    else if k = 2 * ICAO_cache_hash_address addr + 1 then t
    else cache k

/-- `ICAO_address_recently_seen`: slot address non-zero, equal to `addr`, and
stored no more than `MODES_ICAO_CACHE_TTL` seconds ago. -/
def ICAO_address_recently_seen (cache : ℕ → ℕ) (addr now : ℕ) : Bool :=
  let h := ICAO_cache_hash_address addr
  let a := cache (2 * h)
  let seen := cache (2 * h + 1)
  a != 0 && a == addr && decide ((now : ℤ) - (seen : ℤ) ≤ (MODES_ICAO_CACHE_TTL : ℤ))

/-- The magnitude lookup table of `c_gen_magnitude_lut`:
`lut[129*I + Q] = round (360 * hypot (I, Q))` for `I, Q ∈ [0,128]`, embedded in
the executable integer form; theorem `C3_magnitude_lut` proves this equals the
mathematical round (no ties exist). -/
def magnitude_lut (idx : ℕ) : ℕ :=
  (Nat.sqrt (4 * (360 ^ 2 * ((idx / 129) ^ 2 + (idx % 129) ^ 2))) + 1) / 2

/-- `compute_magnitude_vector` of `src/dump1090.c`, one output sample:
`I = data[2k] - 127`, `Q = data[2k+1] - 127`, negatives folded by `I = -I`,
output `lut[129*I + Q]`. -/
def compute_magnitude_vector (data : List ℕ) (k : ℕ) : ℕ :=
  let I : ℤ := (data.getD (2 * k) 0 : ℤ) - 127
  let Q : ℤ := (data.getD (2 * k + 1) 0 : ℤ) - 127
  magnitude_lut (129 * I.natAbs + Q.natAbs)

/-- The AIS 6-bit character set used for DF17 identification frames. -/
def AIS_charset : List ℕ :=
  "?ABCDEFGHIJKLMNOPQRSTUVWXYZ????? ???????????????0123456789??????".toList.map Char.toNat

/-- The 8 callsign characters plus NUL terminator extracted from a DF17
identification frame (`decode_modeS_message`, ME-type 1..4 branch). -/
def decodedFlight (msg : List ℕ) : List ℕ :=
  [AIS_charset.getD ((msg.getD 5 0) >>> 2) 0,
   AIS_charset.getD ((((msg.getD 5 0) &&& 3) <<< 4) ||| ((msg.getD 6 0) >>> 4)) 0,
   AIS_charset.getD ((((msg.getD 6 0) &&& 15) <<< 2) ||| ((msg.getD 7 0) >>> 6)) 0,
   AIS_charset.getD ((msg.getD 7 0) &&& 63) 0,
   AIS_charset.getD ((msg.getD 8 0) >>> 2) 0,
   AIS_charset.getD ((((msg.getD 8 0) &&& 3) <<< 4) ||| ((msg.getD 9 0) >>> 4)) 0,
   AIS_charset.getD ((((msg.getD 9 0) &&& 15) <<< 2) ||| ((msg.getD 10 0) >>> 6)) 0,
   AIS_charset.getD ((msg.getD 10 0) &&& 63) 0,
   0]

/-- `decode_AC13_field`: 13-bit altitude (DF 0, 4, 16, 20).  The metric-unit
out-parameter is display-only and omitted. -/
def decode_AC13_field (msg : List ℕ) : ℤ :=
  let m_bit := (msg.getD 3 0) &&& (1 <<< 6)
  let q_bit := (msg.getD 3 0) &&& (1 <<< 4)
  if m_bit = 0 then
    if q_bit ≠ 0 then
      let n := (((msg.getD 2 0) &&& 31) <<< 6) |||
               (((msg.getD 3 0) &&& 0x80) >>> 2) |||
               (((msg.getD 3 0) &&& 0x20) >>> 1) |||
               ((msg.getD 3 0) &&& 15)
      let ret : ℤ := 25 * (n : ℤ) - 1000
      if ret < 0 then 0 else ret
    else 0
  else 0

/-- `decode_AC12_field`: 12-bit altitude (DF17 airborne position). -/
def decode_AC12_field (msg : List ℕ) : ℤ :=
  let q_bit := (msg.getD 5 0) &&& 1
  if q_bit ≠ 0 then
    let n := (((msg.getD 5 0) >>> 1) <<< 4) ||| (((msg.getD 6 0) &&& 0xF0) >>> 4)
    let ret : ℤ := 25 * (n : ℤ) - 1000
    if ret < 0 then 0 else ret
  else 0

/-- The Gillham squawk decode of `decode_modeS_message` (bits 20..32
interleaved as C1-A1-C2-A2-C4-A4-ZERO-B1-D1-B2-D2-B4-D4), rendered as the
decimal number reading the four octal digits. -/
def decode_identity (msg : List ℕ) : ℕ :=
  let a := (((msg.getD 3 0) &&& 0x80) >>> 5) |||
           ((msg.getD 2 0) &&& 0x02) |||
           (((msg.getD 2 0) &&& 0x08) >>> 3)
  let b := (((msg.getD 3 0) &&& 0x02) <<< 1) |||
           (((msg.getD 3 0) &&& 0x08) >>> 2) |||
           (((msg.getD 3 0) &&& 0x20) >>> 5)
  let c := (((msg.getD 2 0) &&& 0x01) <<< 2) |||
           (((msg.getD 2 0) &&& 0x04) >>> 1) |||
           (((msg.getD 2 0) &&& 0x10) >>> 4)
  let d := (((msg.getD 3 0) &&& 0x01) <<< 2) |||
           (((msg.getD 3 0) &&& 0x04) >>> 1) |||
           (((msg.getD 3 0) &&& 0x10) >>> 4)
  a * 1000 + b * 100 + c * 10 + d

/-- Modelled from the spec: `aircraft_get_addr` is implemented in
`aircraft.c`, which is not under `src/`; the spec defines the ICAO address as
bytes 1..3 of the frame, big-endian. -/
def aircraft_get_addr (a0 a1 a2 : ℕ) : ℕ := (a0 <<< 16) ||| (a1 <<< 8) ||| a2

/-- The decoded-message record `modeS_message` (fields the claims need;
statistics/display-only fields and the `atan2`-based numeric heading are
omitted, see the module comment). -/
structure modeS_message where
  msg : List ℕ := []
  msg_type : ℕ := 0
  msg_bits : ℕ := 0
  CRC : ℕ := 0
  CRC_ok : Bool := false
  error_bit : ℤ := -1
  ca : ℕ := 0
  AA0 : ℕ := 0
  AA1 : ℕ := 0
  AA2 : ℕ := 0
  ME_type : ℕ := 0
  ME_subtype : ℕ := 0
  flight_status : ℕ := 0
  identity : ℕ := 0
  altitude : ℤ := 0
  aircraft_type : ℕ := 0
  flight : List ℕ := List.replicate 9 0
  odd_flag : Bool := false
  UTC_flag : Bool := false
  raw_latitude : ℕ := 0
  raw_longitude : ℕ := 0
  EW_dir : ℕ := 0
  EW_velocity : ℕ := 0
  NS_dir : ℕ := 0
  NS_velocity : ℕ := 0
  vert_rate_source : ℕ := 0
  vert_rate_sign : ℕ := 0
  vert_rate : ℕ := 0
  velocity : ℕ := 0
  heading_is_valid : Bool := false
  sig_level : ℚ := 0
  phase_corrected : Bool := false

/-- `brute_force_AP` of `src/dump1090.c`: for the DFs whose CRC is XORed with
the address, XOR the computed CRC back into the trailing bytes and test the
recovered address against the recent-addresses cache.  Returns the recovered
`AA` bytes on a cache hit. -/
def brute_force_AP (msg : List ℕ) (msg_type msg_bits : ℕ) (cache : ℕ → ℕ) (now : ℕ) :
    Option (ℕ × ℕ × ℕ) :=
  if msg_type = 0 ∨ msg_type = 4 ∨ msg_type = 5 ∨ msg_type = 16 ∨
     msg_type = 20 ∨ msg_type = 21 ∨ msg_type = 24 then
    let lastByte := msg_bits / 8 - 1
    let crc := modeS_checksum msg msg_bits
    let b2 := (msg.getD lastByte 0) ^^^ (crc &&& 0xFF)
    let b1 := (msg.getD (lastByte - 1) 0) ^^^ ((crc >>> 8) &&& 0xFF)
    let b0 := (msg.getD (lastByte - 2) 0) ^^^ ((crc >>> 16) &&& 0xFF)
    let addr := aircraft_get_addr b0 b1 b2
    if ICAO_address_recently_seen cache addr now then some (b0, b1, b2) else none
  else none

/-- The error-fixing stage of `decode_modeS_message` (DF 11 / 17 only):
returns the possibly rewritten buffer, the CRC field, the CRC-OK flag and the
error-bit position. -/
def decode_fix_stage (msg : List ℕ) (msg_type msg_bits : ℕ) (CRC0 : ℕ) (CRC_ok0 : Bool)
    (aggressive : Bool) : List ℕ × ℕ × Bool × ℤ :=
  if ¬CRC_ok0 ∧ (msg_type = 11 ∨ msg_type = 17) then
    let r1 := fix_single_bit_errors msg msg_bits
    if r1.1 ≠ -1 then (r1.2, modeS_checksum r1.2 msg_bits, true, r1.1)
    else if aggressive ∧ msg_type = 17 then
      let r2 := fix_two_bits_errors msg msg_bits
      if r2.1 ≠ -1 then (r2.2, modeS_checksum r2.2 msg_bits, true, r2.1)
      else (msg, CRC0, CRC_ok0, -1)
    else (msg, CRC0, CRC_ok0, -1)
  else (msg, CRC0, CRC_ok0, -1)

/-- `decode_modeS_message` of `src/dump1090.c`.  Besides the decoded record it
returns the address inserted into the recent-addresses cache, if any (the
`ICAO_cache_add_address` call of the DF11/DF17 branch).  `cache`/`now` feed
`brute_force_AP` and the cache test; `aggressive` is `Modes.aggressive`. -/
def decode_modeS_message (_msg : List ℕ) (aggressive : Bool) (cache : ℕ → ℕ) (now : ℕ) :
    modeS_message × Option ℕ :=
  let msg0 := _msg
  let msg_type := (msg0.getD 0 0) >>> 3
  let msg_bits := modeS_message_len_by_type msg_type
  let CRC0 := crc_trailing msg0 msg_bits
  let crc2 := modeS_checksum msg0 msg_bits
  let fx := decode_fix_stage msg0 msg_type msg_bits CRC0 (CRC0 == crc2) aggressive
  let msg := fx.1
  let CRC1 := fx.2.1
  let CRC_ok1 := fx.2.2.1
  let error_bit := fx.2.2.2
  let AA0 := msg.getD 1 0
  let AA1 := msg.getD 2 0
  let AA2 := msg.getD 3 0
  let ME_type := (msg.getD 4 0) >>> 3
  let ME_subtype := (msg.getD 4 0) &&& 7
  let bf :=
    if msg_type ≠ 11 ∧ msg_type ≠ 17 then
      match brute_force_AP msg msg_type msg_bits cache now with
      | some aa => (true, aa.1, aa.2.1, aa.2.2, (none : Option ℕ))
      | none => (false, AA0, AA1, AA2, none)
    else
      (CRC_ok1, AA0, AA1, AA2,
       if CRC_ok1 ∧ error_bit = -1 then some (aircraft_get_addr AA0 AA1 AA2) else none)
  let base : modeS_message :=
    { msg := msg
      msg_type := msg_type
      msg_bits := msg_bits
      CRC := CRC1
      CRC_ok := bf.1
      error_bit := error_bit
      ca := (msg.getD 0 0) &&& 7
      AA0 := bf.2.1
      AA1 := bf.2.2.1
      AA2 := bf.2.2.2.1
      ME_type := ME_type
      ME_subtype := ME_subtype
      flight_status := (msg.getD 0 0) &&& 7
      identity := decode_identity msg
      altitude :=
        if msg_type = 0 ∨ msg_type = 4 ∨ msg_type = 16 ∨ msg_type = 20 then
          decode_AC13_field msg
        else if msg_type = 17 ∧ 9 ≤ ME_type ∧ ME_type ≤ 18 then decode_AC12_field msg
        else 0 }
  let mm :=
    if msg_type = 17 then
      if 1 ≤ ME_type ∧ ME_type ≤ 4 then
        { base with aircraft_type := ME_type - 1, flight := decodedFlight msg }
      else if 9 ≤ ME_type ∧ ME_type ≤ 18 then
        { base with
          odd_flag := (msg.getD 6 0) &&& (1 <<< 2) ≠ 0
          UTC_flag := (msg.getD 6 0) &&& (1 <<< 3) ≠ 0
          raw_latitude := (((msg.getD 6 0) &&& 3) <<< 15) |||
                          ((msg.getD 7 0) <<< 7) ||| ((msg.getD 8 0) >>> 1)
          raw_longitude := (((msg.getD 8 0) &&& 1) <<< 16) |||
                           ((msg.getD 9 0) <<< 8) ||| (msg.getD 10 0) }
      else if ME_type = 19 ∧ 1 ≤ ME_subtype ∧ ME_subtype ≤ 4 then
        if ME_subtype = 1 ∨ ME_subtype = 2 then
          let ew := (((msg.getD 5 0) &&& 3) <<< 8) ||| (msg.getD 6 0)
          let ns := (((msg.getD 7 0) &&& 0x7F) <<< 3) ||| (((msg.getD 8 0) &&& 0xE0) >>> 5)
          let v := Nat.sqrt (ns * ns + ew * ew)
          { base with
            EW_dir := ((msg.getD 5 0) &&& 4) >>> 2
            EW_velocity := ew
            NS_dir := ((msg.getD 7 0) &&& 0x80) >>> 7
            NS_velocity := ns
            vert_rate_source := ((msg.getD 8 0) &&& 0x10) >>> 4
            vert_rate_sign := ((msg.getD 8 0) &&& 0x08) >>> 3
            vert_rate := (((msg.getD 8 0) &&& 7) <<< 6) ||| (((msg.getD 9 0) &&& 0xFC) >>> 2)
            velocity := v
            heading_is_valid := v ≠ 0 }
        else
          { base with heading_is_valid := (msg.getD 5 0) &&& (1 <<< 2) ≠ 0 }
      else base
    else base
  (mm, bf.2.2.2.2)

/-- The show-state `a_show_t` of `src/aircraft.h`. -/
inductive a_show where
  | firstTime
  | lastTime
  | normal
  | noneShow
deriving DecidableEq

/-- The aircraft record of `src/aircraft.h` (fields the claims need; the
observer-distance fields and estimated position are display-only and tied to
the optional observer position, which is absent in this embedding, see
`set_home_distance_note`).  `position` is `none` until the CPR decoder first
writes it. -/
structure aircraft where
  addr : ℕ := 0
  flight : List ℕ := List.replicate 9 0
  altitude : ℤ := 0
  speed : ℕ := 0
  heading_is_valid : Bool := false
  seen_first : ℕ := 0
  seen_last : ℕ := 0
  EST_seen_last : ℕ := 0
  messages : ℕ := 0
  identity : ℕ := 0
  showState : a_show := a_show.firstTime
  sig_levels : List ℚ := List.replicate 4 0
  sig_idx : ℕ := 0
  odd_CPR_lat : ℕ := 0
  odd_CPR_lon : ℕ := 0
  even_CPR_lat : ℕ := 0
  even_CPR_lon : ℕ := 0
  odd_CPR_time : ℕ := 0
  even_CPR_time : ℕ := 0
  position : Option (ℚ × ℚ) := none
deriving DecidableEq

instance : Inhabited aircraft := ⟨{}⟩

/-- Modelled from the spec: `aircraft_find_or_create` is implemented in
`aircraft.c`, which is not under `src/`.  Per the spec, a fresh record has
`seen_first = seen_last = now`, message count 0 and show-state `first-time`;
all other fields start zeroed (C allocation convention), in particular both
CPR tick-times are 0 while no fix of that parity has been received. -/
def aircraft_find_or_create_new (addr now : ℕ) : aircraft :=
  { addr := addr, seen_first := now, seen_last := now }

/-- `CPR_mod_func` of `src/misc.c`: always-positive MOD. -/
def CPR_mod_func (a b : ℤ) : ℤ :=
  let res := a % b
  if res < 0 then res + b else res

/-- `CPR_NL_func` of `src/misc.c`: the tabulated NL (number of longitude
zones) function; the table is symmetric about the equator.  The decimal
literals of the source are taken exactly. -/
def CPR_NL_func (lat0 : ℚ) : ℤ :=
  let lat := if lat0 < 0 then -lat0 else lat0
  if lat < 10.47047130 then 59 else
  if lat < 14.82817437 then 58 else
  if lat < 18.18626357 then 57 else
  if lat < 21.02939493 then 56 else
  if lat < 23.54504487 then 55 else
  if lat < 25.82924707 then 54 else
  if lat < 27.93898710 then 53 else
  if lat < 29.91135686 then 52 else
  if lat < 31.77209708 then 51 else
  if lat < 33.53993436 then 50 else
  if lat < 35.22899598 then 49 else
  if lat < 36.85025108 then 48 else
  if lat < 38.41241892 then 47 else
  if lat < 39.92256684 then 46 else
  if lat < 41.38651832 then 45 else
  if lat < 42.80914012 then 44 else
  if lat < 44.19454951 then 43 else
  if lat < 45.54626723 then 42 else
  if lat < 46.86733252 then 41 else
  if lat < 48.16039128 then 40 else
  if lat < 49.42776439 then 39 else
  if lat < 50.67150166 then 38 else
  if lat < 51.89342469 then 37 else
  if lat < 53.09516153 then 36 else
  if lat < 54.27817472 then 35 else
  if lat < 55.44378444 then 34 else
  if lat < 56.59318756 then 33 else
  if lat < 57.72747354 then 32 else
  if lat < 58.84763776 then 31 else
  if lat < 59.95459277 then 30 else
  if lat < 61.04917774 then 29 else
  if lat < 62.13216659 then 28 else
  if lat < 63.20427479 then 27 else
  if lat < 64.26616523 then 26 else
  if lat < 65.31845310 then 25 else
  if lat < 66.36171008 then 24 else
  if lat < 67.39646774 then 23 else
  if lat < 68.42322022 then 22 else
  if lat < 69.44242631 then 21 else
  if lat < 70.45451075 then 20 else
  if lat < 71.45986473 then 19 else
  if lat < 72.45884545 then 18 else
  if lat < 73.45177442 then 17 else
  if lat < 74.43893416 then 16 else
  if lat < 75.42056257 then 15 else
  if lat < 76.39684391 then 14 else
  if lat < 77.36789461 then 13 else
  if lat < 78.33374083 then 12 else
  if lat < 79.29428225 then 11 else
  if lat < 80.24923213 then 10 else
  if lat < 81.19801349 then 9 else
  if lat < 82.13956981 then 8 else
  if lat < 83.07199445 then 7 else
  if lat < 83.99173563 then 6 else
  if lat < 84.89166191 then 5 else
  if lat < 85.75541621 then 4 else
  if lat < 86.53536998 then 3 else
  if lat < 87.00000000 then 2 else 1

/-- `CPR_N_func` of `src/misc.c`. -/
def CPR_N_func (lat : ℚ) (is_odd : ℤ) : ℤ :=
  let nl := CPR_NL_func lat - is_odd
  if nl < 1 then 1 else nl

/-- `CPR_Dlong_func` of `src/misc.c`. -/
def CPR_Dlong_func (lat : ℚ) (is_odd : ℤ) : ℚ :=
  360 / ((CPR_N_func lat is_odd : ℤ) : ℚ)

/-- The latitude index `j` of `decode_CPR`. -/
def CPR_j (a : aircraft) : ℤ :=
  Int.floor ((59 * (a.even_CPR_lat : ℚ) - 60 * (a.odd_CPR_lat : ℚ)) / 131072 + 1 / 2)

/-- `rlat0` of `decode_CPR` (even candidate latitude, reduced below 270). -/
def CPR_rlat0 (a : aircraft) : ℚ :=
  let r := (360 / 60 : ℚ) * ((CPR_mod_func (CPR_j a) 60 : ℤ) + (a.even_CPR_lat : ℚ) / 131072)
  if r ≥ 270 then r - 360 else r

/-- `rlat1` of `decode_CPR` (odd candidate latitude, reduced below 270). -/
def CPR_rlat1 (a : aircraft) : ℚ :=
  let r := (360 / 59 : ℚ) * ((CPR_mod_func (CPR_j a) 59 : ℤ) + (a.odd_CPR_lat : ℚ) / 131072)
  if r ≥ 270 then r - 360 else r

/-- `set_home_distance` of `src/misc.c` updates the observer-distance fields
only when an observer home position is configured (`VALID_POS (Modes.home_pos)`);
this embedding covers runs without an observer, where the function leaves the
record unchanged, so `decode_CPR` below omits the call. -/
def set_home_distance_note : ℕ := 0

/-- `decode_CPR` of `src/misc.c`: pair the stored even and odd raw CPR fixes;
if the NL values of the two candidate latitudes disagree, return the record
unchanged, otherwise write `position` from the fresher frame. -/
def decode_CPR (a : aircraft) : aircraft :=
  let rlat0 := CPR_rlat0 a
  let rlat1 := CPR_rlat1 a
  if CPR_NL_func rlat0 ≠ CPR_NL_func rlat1 then a
  else
    let p :=
      if a.even_CPR_time > a.odd_CPR_time then
        let ni := CPR_N_func rlat0 0
        let m : ℤ := Int.floor
          (((a.even_CPR_lon : ℚ) * ((CPR_NL_func rlat0 : ℤ) - 1) -
            (a.odd_CPR_lon : ℚ) * ((CPR_NL_func rlat0 : ℤ) : ℚ)) / 131072 + 1 / 2)
        (rlat0, CPR_Dlong_func rlat0 0 * ((CPR_mod_func m ni : ℤ) + (a.even_CPR_lon : ℚ) / 131072))
      else
        let ni := CPR_N_func rlat1 1
        let m : ℤ := Int.floor
          (((a.even_CPR_lon : ℚ) * ((CPR_NL_func rlat1 : ℤ) - 1) -
            (a.odd_CPR_lon : ℚ) * ((CPR_NL_func rlat1 : ℤ) : ℚ)) / 131072 + 1 / 2)
        (rlat1, CPR_Dlong_func rlat1 1 * ((CPR_mod_func m ni : ℤ) + (a.odd_CPR_lon : ℚ) / 131072))
    let lon := if p.2 > 180 then p.2 - 360 else p.2
    { a with position := some (p.1, lon) }

/-- The trailing-space trim loop of `interactive_receive_data`:
`p = a->flight + sizeof(a->flight) - 1;` then while the byte at `p` is a
space, zero it and walk left.  Embedded with an explicit start index `i`
(the source starts at index 8, the NUL terminator). -/
def trim_from : List ℕ → ℕ → List ℕ
  | fl, 0 => if fl.getD 0 0 = 32 then fl.set 0 0 else fl
  | fl, i + 1 => if fl.getD (i + 1) 0 = 32 then trim_from (fl.set (i + 1) 0) i else fl

/-- The `memcpy (a->flight, mm->flight, sizeof(a->flight))` copy: exactly 9
bytes, padding with 0 (the zeroed tail of `mm`). -/
def copy9 (l : List ℕ) : List ℕ := l.take 9 ++ List.replicate (9 - l.length) 0

/-- `interactive_receive_data` of `src/interactive.c`, acting on the record
`a` found or created for the message's address (the lookup itself lives in
`aircraft.c`, outside `src/`).  Returns `none` when the message's CRC is
invalid (the C function returns `NULL` and touches nothing). -/
def interactive_receive_data (a : aircraft) (mm : modeS_message) (now : ℕ) :
    Option aircraft :=
  if ¬mm.CRC_ok then none
  else
    let a1 := { a with
      seen_last := now
      messages := a.messages + 1
      sig_levels := a.sig_levels.set a.sig_idx mm.sig_level
      sig_idx := (a.sig_idx + 1) &&& 3 }
    let a2 :=
      if mm.msg_type = 5 ∨ mm.msg_type = 21 then
        { a1 with identity := if mm.identity ≠ 0 then mm.identity else 0 }
      else if mm.msg_type = 0 ∨ mm.msg_type = 4 ∨ mm.msg_type = 20 then
        { a1 with altitude := mm.altitude }
      else if mm.msg_type = 17 then
        if 1 ≤ mm.ME_type ∧ mm.ME_type ≤ 4 then
          { a1 with flight := trim_from (copy9 mm.flight) 8 }
        else if (9 ≤ mm.ME_type ∧ mm.ME_type ≤ 18) ∨ (20 ≤ mm.ME_type ∧ mm.ME_type ≤ 22) then
          let a3 :=
            if mm.odd_flag then
              { a1 with altitude := mm.altitude, odd_CPR_lat := mm.raw_latitude,
                        odd_CPR_lon := mm.raw_longitude, odd_CPR_time := now }
            else
              { a1 with altitude := mm.altitude, even_CPR_lat := mm.raw_latitude,
                        even_CPR_lon := mm.raw_longitude, even_CPR_time := now }
          if ((a3.even_CPR_time : ℤ) - (a3.odd_CPR_time : ℤ)).natAbs ≤ 60 * 10 * 1000 then
            decode_CPR a3
          else a3
        else if mm.ME_type = 19 then
          if mm.ME_subtype = 1 ∨ mm.ME_subtype = 2 then
            { a1 with speed := mm.velocity, heading_is_valid := mm.heading_is_valid }
          else a1
        else a1
      else a1
    some a2

/-- The first-ten-samples preamble relation test plus the two high-reference
rejections of `detect_modeS` (`src/dump1090.c` lines 2089-2126).  The
magnitude buffer is a total function, matching the C pointer reads. -/
def preamble_ok (m : ℕ → ℕ) (j : ℕ) : Bool :=
  (m j > m (j+1) && m (j+1) < m (j+2) && m (j+2) > m (j+3) && m (j+3) < m j &&
   m (j+4) < m j && m (j+5) < m j && m (j+6) < m j &&
   m (j+7) > m (j+8) && m (j+8) < m (j+9) && m (j+9) > m (j+6)) &&
  (let high := (m j + m (j+2) + m (j+7) + m (j+9)) / 6
   !(m (j+4) ≥ high || m (j+5) ≥ high) &&
   !(m (j+11) ≥ high || m (j+12) ≥ high || m (j+13) ≥ high || m (j+14) ≥ high))

/-- `detect_out_of_phase` of `src/dump1090.c`; the caller guarantees `j ≥ 1`
before reading `m[j-1]`. -/
def detect_out_of_phase (m : ℕ → ℕ) (j : ℕ) : ℤ :=
  if m (j+3) > m (j+2) / 3 then 1
  else if m (j+10) > m (j+9) / 3 then 1
  else if m (j+6) > m (j+7) / 3 then -1
  else if m (j-1) > m (j+1) / 3 then -1
  else 0

/-- Point update of a magnitude buffer (a C array store). -/
def bufSet (m : ℕ → ℕ) (i v : ℕ) : ℕ → ℕ := fun k => if k = i then v else m k

/-- One step of `apply_phase_correction`: at loop counter `i` (even, relative
to the first sample after the preamble), scale the first sample of the next
bit by 5/4 after a one, by 4/5 after a zero; the store is a `uint16_t`
assignment, hence the `% 65536`. -/
def phase_step (j : ℕ) (m : ℕ → ℕ) (i : ℕ) : ℕ → ℕ :=
  if m (j + 16 + i) > m (j + 16 + i + 1) then
    bufSet m (j + 16 + i + 2) (m (j + 16 + i + 2) * 5 / 4 % 65536)
  else
    bufSet m (j + 16 + i + 2) (m (j + 16 + i + 2) * 4 / 5 % 65536)

/-- `apply_phase_correction` of `src/dump1090.c`: the loop
`for (j = 0; j < 2*(MODES_LONG_MSG_BITS-1); j += 2)` after `m += 16`,
applied at candidate start `j` of the buffer. -/
def apply_phase_correction (m : ℕ → ℕ) (j : ℕ) : ℕ → ℕ :=
  (List.range (MODES_LONG_MSG_BITS - 1)).foldl (fun cur k => phase_step j cur (2 * k)) m

/-- The saved window `aux` of `detect_modeS` spans
`MODES_LONG_MSG_BITS * 2 = 224` samples starting at `j + 16`
(`memcpy (aux, m + j + MODES_PREAMBLE_US*2, sizeof(aux))`); restoring copies
the saved original samples back over the corrected buffer. -/
def restore_window (orig cur : ℕ → ℕ) (j : ℕ) : ℕ → ℕ :=
  fun k => if j + 16 ≤ k ∧ k < j + 16 + 2 * MODES_LONG_MSG_BITS then orig k else cur k

/-- The absolute difference `delta = abs (low - high)` of the bit slicer. -/
def sliceDelta (mc : ℕ → ℕ) (j b : ℕ) : ℕ :=
  let low := mc (j + 2 * b + 2 * MODES_PREAMBLE_US)
  let high := mc (j + 2 * b + 2 * MODES_PREAMBLE_US + 1)
  if low ≥ high then low - high else high - low

/-- The sliced bit value at bit index `b` of the `detect_modeS` slicer:
carry the previous bit when `i > 0` and `delta < 256`; otherwise 2 (error) on
equal magnitudes, 1 when `low > high`, 0 when `low < high`. -/
def sliceBit (mc : ℕ → ℕ) (j : ℕ) : ℕ → ℕ
  | 0 =>
      let low := mc (j + 2 * MODES_PREAMBLE_US)
      let high := mc (j + 2 * MODES_PREAMBLE_US + 1)
      if low = high then 2 else if low > high then 1 else 0
  | b + 1 =>
      if sliceDelta mc j (b + 1) < 256 then sliceBit mc j b
      else
        let low := mc (j + 2 * (b + 1) + 2 * MODES_PREAMBLE_US)
        let high := mc (j + 2 * (b + 1) + 2 * MODES_PREAMBLE_US + 1)
        if low = high then 2 else if low > high then 1 else 0

/-- Whether the slicer's error branch is taken at bit `b` (the branch that
sets `bits[i/2] = 2`): reachable only when the carry rule does not fire. -/
def sliceErrBranch (mc : ℕ → ℕ) (j b : ℕ) : Bool :=
  match b with
  | 0 =>
      mc (j + 2 * MODES_PREAMBLE_US) = mc (j + 2 * MODES_PREAMBLE_US + 1)
  | b + 1 =>
      ¬(sliceDelta mc j (b + 1) < 256) ∧
      mc (j + 2 * (b + 1) + 2 * MODES_PREAMBLE_US) =
        mc (j + 2 * (b + 1) + 2 * MODES_PREAMBLE_US + 1)

/-- The slicer's error counter over the first `n` bit indices: the error
branch increments it only while `i < 2 * MODES_SHORT_MSG_BITS`
(bit index below 56). -/
def sliceErrors (mc : ℕ → ℕ) (j n : ℕ) : ℕ :=
  (List.range n).foldl
    (fun e b => if sliceErrBranch mc j b ∧ b < MODES_SHORT_MSG_BITS then e + 1 else e) 0

/-- The byte packing loop of `detect_modeS`: eight sliced bits OR-ed into one
`uint8_t` (hence `% 256`; an error value 2 shifted left can overflow the
byte exactly as in C). -/
def packByte (mc : ℕ → ℕ) (j k : ℕ) : ℕ :=
  ((sliceBit mc j (8*k) <<< 7) ||| (sliceBit mc j (8*k+1) <<< 6) |||
   (sliceBit mc j (8*k+2) <<< 5) ||| (sliceBit mc j (8*k+3) <<< 4) |||
   (sliceBit mc j (8*k+4) <<< 3) ||| (sliceBit mc j (8*k+5) <<< 2) |||
   (sliceBit mc j (8*k+6) <<< 1) ||| sliceBit mc j (8*k+7)) % 256

/-- The 14 packed message bytes of a candidate. -/
def packedMsg (mc : ℕ → ℕ) (j : ℕ) : List ℕ :=
  (List.range (MODES_LONG_MSG_BITS / 8)).map (packByte mc j)

/-- The noise filter of `detect_modeS`: mean `|low - high|` over the message
body, computed on the (restored) buffer. -/
def noiseDelta (m : ℕ → ℕ) (j msg_len : ℕ) : ℕ :=
  ((List.range (8 * msg_len)).foldl (fun d b => d + sliceDelta m j b) 0) / (4 * msg_len)

/-- The measured signal power of an accepted candidate:
`sum of m[k]^2 for k in [j, j + MODES_FULL_LEN)` over `65536 * signal_len`
with `signal_len = mlen`. -/
def signalLevel (m : ℕ → ℕ) (j mlen : ℕ) : ℚ :=
  ((List.range MODES_FULL_LEN).foldl (fun s k => s + (m (j + k) : ℚ) * (m (j + k) : ℚ)) 0) /
  (65536 * (mlen : ℚ))

/-- The result of one iteration of the scan loop of `detect_modeS`:
the scan index examined by the next iteration (the loop increment included),
the `use_correction` flag it will see, the buffer it will read, and the
message handed to `modeS_user_message`, if any. -/
structure scanResult where
  next_j : ℕ
  next_uc : Bool
  buffer : ℕ → ℕ
  accepted : Option modeS_message

/-- One iteration of the scan loop of `detect_modeS` at index `j` with
`use_correction = uc`: preamble tests (skipped when retrying), optional phase
correction, bit slicing, unconditional window restore after a retry, noise
filter, error gate, decode, and the advance/retry logic of the loop tail. -/
def scanStep (m : ℕ → ℕ) (mlen j : ℕ) (uc : Bool) (aggressive : Bool)
    (cache : ℕ → ℕ) (tnow : ℕ) : scanResult :=
  if ¬uc ∧ ¬preamble_ok m j then
    { next_j := j + 1, next_uc := uc, buffer := m, accepted := none }
  else
    let mc :=
      if uc ∧ j ≠ 0 ∧ detect_out_of_phase m j ≠ 0 then apply_phase_correction m j else m
    let buffer1 := if uc then restore_window m mc j else m
    let errors := sliceErrors mc j MODES_LONG_MSG_BITS
    let msg := packedMsg mc j
    let msg_type := (msg.getD 0 0) >>> 3
    let msg_len := modeS_message_len_by_type msg_type / 8
    let delta := noiseDelta buffer1 j msg_len
    if delta < 10 * 255 then
      { next_j := j + 1, next_uc := false, buffer := buffer1, accepted := none }
    else if errors = 0 ∨ (aggressive ∧ errors ≤ 2) then
      let dm := decode_modeS_message msg aggressive cache tnow
      let mm := { dm.1 with sig_level := signalLevel buffer1 j mlen, phase_corrected := uc }
      if mm.CRC_ok then
        { next_j := j + 2 * (MODES_PREAMBLE_US + 8 * msg_len) + 1, next_uc := false,
          buffer := buffer1, accepted := some mm }
      else if ¬uc then
        { next_j := j, next_uc := true, buffer := buffer1, accepted := none }
      else
        { next_j := j + 1, next_uc := false, buffer := buffer1, accepted := none }
    else
      if ¬uc then
        { next_j := j, next_uc := true, buffer := buffer1, accepted := none }
      else
        { next_j := j + 1, next_uc := false, buffer := buffer1, accepted := none }

/-! ### Concrete test vectors -/

/-- A CRC-valid DF11 frame (first byte 0x58 = DF 11, CA 0; the trailing three
bytes are its Mode S checksum 0x0E62AC). -/
def DF11_valid : List ℕ := [0x58, 0xAB, 0xCD, 0xEF, 0x0E, 0x62, 0xAC]

/-- `DF11_valid` with bit 5 flipped (`0x58 ^ 0x04 = 0x5C`). -/
def DF11_flip5 : List ℕ := [0x5C, 0xAB, 0xCD, 0xEF, 0x0E, 0x62, 0xAC]

/-- The frame quoted by scenario S1 of the spec:
`8D 4B 96 96 20 29 40 73 D9 84 07 48 22 11`. -/
def S1_frame : List ℕ :=
  [0x8D, 0x4B, 0x96, 0x96, 0x20, 0x29, 0x40, 0x73, 0xD9, 0x84, 0x07, 0x48, 0x22, 0x11]

/-- A CRC-valid DF17 identification frame (ME-type 4) whose AIS callsign field
reads `ABC` followed by five spaces; the trailing three bytes are its Mode S
checksum. -/
def DF17_ident_ABC : List ℕ :=
  [0x8D, 0x4B, 0x96, 0x96, 0x20, 0x04, 0x20, 0xE0, 0x82, 0x08, 0x20, 0x53, 0x06, 0x0F]

/-- The all-zero ICAO cache (initial state). -/
def zeroCache : ℕ → ℕ := fun _ => 0

/-- Pad a short frame to the 14-byte `mm->msg` buffer. -/
def pad14 (l : List ℕ) : List ℕ := l ++ List.replicate (14 - l.length) 0

/-- The 16 preamble samples of the synthetic demodulator input: impulses of
height 3000 at offsets 0, 2, 7, 9. -/
def demodPreamble : List ℕ := [3000, 0, 3000, 0, 0, 0, 0, 3000, 0, 3000, 0, 0, 0, 0, 0, 0]

/-- A synthetic magnitude buffer carrying `DF11_valid` as a clean PPM signal:
preamble at index 0, then for each of the 112 bit periods the sample pair
`(3000, 0)` for a one and `(0, 3000)` for a zero. -/
def demodBuf (k : ℕ) : ℕ :=
  if k < 16 then demodPreamble.getD k 0
  else if k < 240 then
    (if (k - 16) % 2 = 0 then (if msgBit (pad14 DF11_valid) ((k - 16) / 2) then 3000 else 0)
     else (if msgBit (pad14 DF11_valid) ((k - 16) / 2) then 0 else 3000))
  else 0

/-- The all-zero magnitude buffer (no signal). -/
def zeroBuf : ℕ → ℕ := fun _ => 0

/-- `demodBuf` with the first message bit period swapped: the sample pair at
indices 16-17 reads `(3000, 0)` instead of `(0, 3000)`, so the sliced frame
differs from `DF11_valid` in its first bit and its CRC check fails. -/
def demodBufBad (k : ℕ) : ℕ :=
  if k = 16 then 3000 else if k = 17 then 0 else demodBuf k

instance : Inhabited modeS_message := ⟨{}⟩

/-- A decoded even airborne-position DF17 message with raw latitude and
longitude 0 (only the fields `interactive_receive_data` reads). -/
def mmEvenPos : modeS_message :=
  { CRC_ok := true, msg_type := 17, msg_bits := 112, ME_type := 9 }

/-- The contribution of message bit `j` to the checksum fold (proof support). -/
def chkTerm (msg : List ℕ) (bits j : ℕ) : ℕ :=
  if msgBit msg j then modeS_checksum_table (j + checksum_offset bits) else 0

/-- Checksum fold truncated to the first `n` bit positions (proof support). -/
def checksumUpTo (msg : List ℕ) (bits n : ℕ) : ℕ :=
  (List.range n).foldl (fun crc j => crc ^^^ chkTerm msg bits j) 0

end Dump1090

namespace Dump1090

/-! ### Checksum algebra (support for C2 and C4) -/

theorem msgBit_eq_testBit (msg : List ℕ) (j : ℕ) :
    msgBit msg j = Nat.testBit (msg.getD (j / 8) 0) (7 - j % 8) := by
  unfold msgBit
  rw [Nat.one_shiftLeft, Nat.and_two_pow]
  cases h : Nat.testBit (msg.getD (j / 8) 0) (7 - j % 8) <;>
    simp [Nat.pos_iff_ne_zero.mp (Nat.two_pow_pos (7 - j % 8))]

theorem foldl_xor_start (f : ℕ → ℕ) (l : List ℕ) (c : ℕ) :
    l.foldl (fun acc j => acc ^^^ f j) c = c ^^^ l.foldl (fun acc j => acc ^^^ f j) 0 := by
  induction l generalizing c with
  | nil => simp
  | cons a t ih =>
      simp only [List.foldl_cons]
      rw [ih (c ^^^ f a), ih (0 ^^^ f a)]
      simp [Nat.xor_assoc]

theorem checksum_eq_upTo (msg : List ℕ) (bits : ℕ) :
    modeS_checksum msg bits = checksumUpTo msg bits bits := by
  unfold modeS_checksum checksumUpTo chkTerm
  congr 1
  funext crc j
  by_cases h : msgBit msg j <;> simp [h]

theorem checksumUpTo_succ (msg : List ℕ) (bits n : ℕ) :
    checksumUpTo msg bits (n + 1) = checksumUpTo msg bits n ^^^ chkTerm msg bits n := by
  unfold checksumUpTo
  rw [List.range_succ, List.foldl_append]
  rfl

theorem msgBit_flip_ne (msg : List ℕ) (k j : ℕ) (hne : j ≠ k) :
    msgBit (flipBit msg k) j = msgBit msg j := by
  rw [msgBit_eq_testBit, msgBit_eq_testBit]
  unfold flipBit
  rcases eq_or_ne (j / 8) (k / 8) with hb | hb
  · rcases Nat.lt_or_ge (k / 8) msg.length with hl | hl
    · have hbit : 7 - j % 8 ≠ 7 - k % 8 := by
        intro hc
        apply hne
        have hj8 : j % 8 < 8 := Nat.mod_lt _ (by norm_num)
        have hk8 : k % 8 < 8 := Nat.mod_lt _ (by norm_num)
        have : j % 8 = k % 8 := by omega
        calc j = 8 * (j / 8) + j % 8 := by omega
        _ = 8 * (k / 8) + k % 8 := by rw [hb, this]
        _ = k := by omega
      rw [hb]
      simp only [List.getD_eq_getElem?_getD, List.getElem?_set_self hl]
      have : msg[k / 8]? = some (msg.getD (k / 8) 0) := by
        simp [List.getD_eq_getElem?_getD, List.getElem?_eq_getElem hl]
      simp only [this, Option.map_some, Option.getD_some]
      rw [Nat.one_shiftLeft, Nat.testBit_xor,
          Nat.testBit_two_pow_of_ne (Ne.symm hbit)]
      simp
    · have h1 : msg[j / 8]? = none := List.getElem?_eq_none (by omega)
      have h2 : ¬(j / 8 < msg.length) := by omega
      simp [List.getD_eq_getElem?_getD, List.getElem?_set, hb.symm, Nat.not_lt.mpr hl, h1, h2]
  · simp [List.getD_eq_getElem?_getD, List.getElem?_set_ne (Ne.symm hb)]

theorem msgBit_flip_self (msg : List ℕ) (k : ℕ) (hl : k / 8 < msg.length) :
    msgBit (flipBit msg k) k = !msgBit msg k := by
  rw [msgBit_eq_testBit, msgBit_eq_testBit]
  unfold flipBit
  simp only [List.getD_eq_getElem?_getD, List.getElem?_set_self hl]
  have : msg[k / 8]? = some (msg.getD (k / 8) 0) := by
    simp [List.getD_eq_getElem?_getD, List.getElem?_eq_getElem hl]
  simp only [this, Option.map_some, Option.getD_some]
  rw [Nat.one_shiftLeft, Nat.testBit_xor, Nat.testBit_two_pow_self]
  cases Nat.testBit (msg.getD (k / 8) 0) (7 - k % 8) <;> rfl

theorem checksumUpTo_flip (msg : List ℕ) (bits k : ℕ) (hl : k / 8 < msg.length) :
    ∀ n, checksumUpTo (flipBit msg k) bits n =
      checksumUpTo msg bits n ^^^
        (if k < n then modeS_checksum_table (k + checksum_offset bits) else 0) := by
  intro n
  induction n with
  | zero => simp [checksumUpTo]
  | succ n ih =>
      rw [checksumUpTo_succ, checksumUpTo_succ, ih]
      rcases eq_or_ne n k with rfl | hne
      · have h1 : ¬(n < n) := lt_irrefl n
        have h2 : n < n + 1 := Nat.lt_succ_self n
        simp only [h1, if_false, h2, if_true, Nat.xor_zero]
        unfold chkTerm
        rw [msgBit_flip_self msg n hl]
        cases hb : msgBit msg n
        · simp [Nat.xor_assoc, Nat.xor_comm]
        · simp [Nat.xor_assoc]
      · have : chkTerm (flipBit msg k) bits n = chkTerm msg bits n := by
          unfold chkTerm
          rw [msgBit_flip_ne msg k n hne]
        rw [this]
        rcases Nat.lt_or_ge k n with hk | hk
        · have h1 : k < n := hk
          have h2 : k < n + 1 := Nat.lt_succ_of_lt hk
          simp only [h1, if_true, h2]
          rw [Nat.xor_assoc, Nat.xor_comm (modeS_checksum_table _), ← Nat.xor_assoc]
        · have h1 : ¬(k < n) := Nat.not_lt.mpr hk
          have h2 : ¬(k < n + 1) := by omega
          simp [h1, h2]

theorem checksum_flip (msg : List ℕ) (bits k : ℕ) (hk : k < bits) (hl : k / 8 < msg.length) :
    modeS_checksum (flipBit msg k) bits =
      modeS_checksum msg bits ^^^ modeS_checksum_table (k + checksum_offset bits) := by
  rw [checksum_eq_upTo, checksum_eq_upTo, checksumUpTo_flip msg bits k hl bits]
  simp [hk]

theorem checksumUpTo_congr (m1 m2 : List ℕ) (bits : ℕ) :
    ∀ n, (∀ j < n, chkTerm m1 bits j = chkTerm m2 bits j) →
      checksumUpTo m1 bits n = checksumUpTo m2 bits n := by
  intro n
  induction n with
  | zero => intro _; rfl
  | succ n ih =>
      intro h
      rw [checksumUpTo_succ, checksumUpTo_succ,
          ih (fun j hj => h j (Nat.lt_succ_of_lt hj)), h n (Nat.lt_succ_self n)]

theorem table_tail_zero : ∀ j < 112, 88 ≤ j → modeS_checksum_table j = 0 := by decide

theorem getD_set_self_of_lt (l : List ℕ) (i v : ℕ) (h : i < l.length) :
    (l.set i v).getD i 0 = v := by
  simp [List.getD_eq_getElem?_getD, List.getElem?_set_self h]

theorem getD_set_other (l : List ℕ) (i j v : ℕ) (h : i ≠ j) :
    (l.set i v).getD j 0 = l.getD j 0 := by
  simp [List.getD_eq_getElem?_getD, List.getElem?_set_ne h]

theorem getD_writeCRC_other (msg : List ℕ) (bits c i : ℕ)
    (h3 : i ≠ bits / 8 - 3) (h2 : i ≠ bits / 8 - 2) (h1 : i ≠ bits / 8 - 1) :
    (writeCRC msg bits c).getD i 0 = msg.getD i 0 := by
  unfold writeCRC
  rw [getD_set_other _ _ _ _ (Ne.symm h1), getD_set_other _ _ _ _ (Ne.symm h2),
      getD_set_other _ _ _ _ (Ne.symm h3)]

theorem crc_reassemble (c : ℕ) (hc : c < 2 ^ 24) :
    (((c >>> 16) &&& 255) <<< 16) ||| (((c >>> 8) &&& 255) <<< 8) ||| (c &&& 255) = c := by
  have h255 : (255 : ℕ) = 2 ^ 8 - 1 := by norm_num
  rw [h255, Nat.and_pow_two_sub_one_eq_mod, Nat.and_pow_two_sub_one_eq_mod,
      Nat.and_pow_two_sub_one_eq_mod, Nat.shiftRight_eq_div_pow, Nat.shiftRight_eq_div_pow,
      Nat.shiftLeft_eq, Nat.shiftLeft_eq]
  set a := c / 2 ^ 16 % 2 ^ 8 with ha
  set b := c / 2 ^ 8 % 2 ^ 8 with hb
  set r := c % 2 ^ 8 with hr
  have hb8 : b < 2 ^ 8 := Nat.mod_lt _ (by norm_num)
  have hr8 : r < 2 ^ 8 := Nat.mod_lt _ (by norm_num)
  have h1 : a * 2 ^ 16 ||| b * 2 ^ 8 = a * 2 ^ 16 + b * 2 ^ 8 := by
    rw [Nat.mul_comm a (2 ^ 16)]
    refine (Nat.mul_add_lt_is_or ?_ a).symm
    have : b * 2 ^ 8 < 2 ^ 8 * 2 ^ 8 := by
      have hb8' : b < 256 := by norm_num at hb8 ⊢; omega
      norm_num
      omega
    calc b * 2 ^ 8 < 2 ^ 8 * 2 ^ 8 := this
    _ = 2 ^ 16 := by norm_num
  have h2 : a * 2 ^ 16 + b * 2 ^ 8 = 2 ^ 8 * (2 ^ 8 * a + b) := by ring
  have h3 : (a * 2 ^ 16 + b * 2 ^ 8) ||| r = a * 2 ^ 16 + b * 2 ^ 8 + r := by
    rw [h2]
    exact (Nat.mul_add_lt_is_or hr8 _).symm
  rw [h1, h3, ha, hb, hr]
  omega

theorem table_entry_lt (i : ℕ) : modeS_checksum_table i < 2 ^ 24 := by
  by_cases h : i < 112
  · have hall : ∀ i < 112, modeS_checksum_table i < 2 ^ 24 := by decide
    exact hall i h
  · have : modeS_checksum_table i = 0 := by
      unfold modeS_checksum_table
      rw [List.getD_eq_getElem?_getD, List.getElem?_eq_none]
      · rfl
      · have hlen : modeS_checksum_table_list.length = 112 := by rfl
        omega
    rw [this]
    norm_num

theorem checksum_lt (msg : List ℕ) (bits : ℕ) : modeS_checksum msg bits < 2 ^ 24 := by
  rw [checksum_eq_upTo]
  have : ∀ n, checksumUpTo msg bits n < 2 ^ 24 := by
    intro n
    induction n with
    | zero => simp [checksumUpTo]
    | succ n ih =>
        rw [checksumUpTo_succ]
        refine Nat.xor_lt_two_pow ih ?_
        unfold chkTerm
        split
        · exact table_entry_lt _
        · norm_num
  exact this bits

theorem checksum_writeCRC (msg : List ℕ) (bits c : ℕ) (h : bits = 56 ∨ bits = 112) :
    modeS_checksum (writeCRC msg bits c) bits = modeS_checksum msg bits := by
  rw [checksum_eq_upTo, checksum_eq_upTo]
  apply checksumUpTo_congr
  intro j hj
  unfold chkTerm
  rcases h with hb | hb <;> subst hb
  · rcases Nat.lt_or_ge j 32 with hj32 | hj32
    · rw [show msgBit (writeCRC msg 56 c) j = msgBit msg j by
        rw [msgBit_eq_testBit, msgBit_eq_testBit,
            getD_writeCRC_other msg 56 c (j / 8) (by omega) (by omega) (by omega)]]
    · have hz : modeS_checksum_table (j + checksum_offset 56) = 0 := by
        apply table_tail_zero
        · unfold checksum_offset MODES_LONG_MSG_BITS MODES_SHORT_MSG_BITS
          norm_num
          omega
        · unfold checksum_offset MODES_LONG_MSG_BITS MODES_SHORT_MSG_BITS
          norm_num
          omega
      rw [hz]
      simp
  · rcases Nat.lt_or_ge j 88 with hj88 | hj88
    · rw [show msgBit (writeCRC msg 112 c) j = msgBit msg j by
        rw [msgBit_eq_testBit, msgBit_eq_testBit,
            getD_writeCRC_other msg 112 c (j / 8) (by omega) (by omega) (by omega)]]
    · have hz : modeS_checksum_table (j + checksum_offset 112) = 0 := by
        apply table_tail_zero
        · unfold checksum_offset MODES_LONG_MSG_BITS
          norm_num
          omega
        · unfold checksum_offset MODES_LONG_MSG_BITS
          norm_num
          omega
      rw [hz]
      simp

theorem crc_trailing_writeCRC (msg : List ℕ) (bits c : ℕ)
    (h : (bits = 56 ∧ msg.length = 7) ∨ (bits = 112 ∧ msg.length = 14)) (hc : c < 2 ^ 24) :
    crc_trailing (writeCRC msg bits c) bits = c := by
  unfold crc_trailing writeCRC
  rcases h with ⟨hb, hlen⟩ | ⟨hb, hlen⟩ <;> subst hb
  · have e3 : (56 : ℕ) / 8 - 3 = 4 := by norm_num
    have e2 : (56 : ℕ) / 8 - 2 = 5 := by norm_num
    have e1 : (56 : ℕ) / 8 - 1 = 6 := by norm_num
    rw [e3, e2, e1,
        getD_set_other _ 6 4 _ (by norm_num), getD_set_other _ 5 4 _ (by norm_num),
        getD_set_self_of_lt _ 4 _ (by omega),
        getD_set_other _ 6 5 _ (by norm_num),
        getD_set_self_of_lt _ 5 _ (by simp [hlen]),
        getD_set_self_of_lt _ 6 _ (by simp [hlen])]
    exact crc_reassemble c hc
  · have e3 : (112 : ℕ) / 8 - 3 = 11 := by norm_num
    have e2 : (112 : ℕ) / 8 - 2 = 12 := by norm_num
    have e1 : (112 : ℕ) / 8 - 1 = 13 := by norm_num
    rw [e3, e2, e1,
        getD_set_other _ 13 11 _ (by norm_num), getD_set_other _ 12 11 _ (by norm_num),
        getD_set_self_of_lt _ 11 _ (by omega),
        getD_set_other _ 13 12 _ (by norm_num),
        getD_set_self_of_lt _ 12 _ (by simp [hlen]),
        getD_set_self_of_lt _ 13 _ (by simp [hlen])]
    exact crc_reassemble c hc

/-- Claim C2.  For every 7- or 14-byte frame `msg` with `bits = 8 * length`,
writing `modeS_checksum msg bits` into the trailing 3 bytes yields a frame on
which the CRC check passes (the recomputed checksum equals the trailing 24
bits), and indeed the last 24 entries of the 112-entry parity table are
zero. -/
theorem C2_append_crc_check (msg : List ℕ) (bits : ℕ)
    (h : (bits = 56 ∧ msg.length = 7) ∨ (bits = 112 ∧ msg.length = 14)) :
    modeS_check (writeCRC msg bits (modeS_checksum msg bits)) bits = true ∧
      (∀ j < 112, 88 ≤ j → modeS_checksum_table j = 0) := by
  refine ⟨?_, table_tail_zero⟩
  unfold modeS_check
  rw [checksum_writeCRC msg bits _ (h.imp And.left And.left),
      crc_trailing_writeCRC msg bits _ h (checksum_lt msg bits)]
  simp

/-- Witness for C2: the short frame `58 AB CD EF 00 00 00`. -/
theorem C2_append_crc_check_witness :
    ((56 = 56 ∧ ([0x58, 0xAB, 0xCD, 0xEF, 0, 0, 0] : List ℕ).length = 7) ∨
      (56 = 112 ∧ ([0x58, 0xAB, 0xCD, 0xEF, 0, 0, 0] : List ℕ).length = 14)) ∧
    modeS_check
      (writeCRC [0x58, 0xAB, 0xCD, 0xEF, 0, 0, 0] 56
        (modeS_checksum [0x58, 0xAB, 0xCD, 0xEF, 0, 0, 0] 56)) 56 = true :=
  ⟨Or.inl ⟨rfl, rfl⟩,
   (C2_append_crc_check [0x58, 0xAB, 0xCD, 0xEF, 0, 0, 0] 56 (Or.inl ⟨rfl, rfl⟩)).1⟩

/-! ### C4: a second `fix_single_bit_errors` call -/

theorem table_head_nonzero : ∀ j < 88, modeS_checksum_table j ≠ 0 := by decide

theorem lor3_digits (a b r : ℕ) (hb : b < 256) (hr : r < 256) :
    (a <<< 16) ||| (b <<< 8) ||| r = a * 65536 + b * 256 + r := by
  rw [Nat.shiftLeft_eq, Nat.shiftLeft_eq]
  have h1 : a * 2 ^ 16 ||| b * 2 ^ 8 = a * 2 ^ 16 + b * 2 ^ 8 := by
    rw [Nat.mul_comm a (2 ^ 16)]
    refine (Nat.mul_add_lt_is_or ?_ a).symm
    have : b * 2 ^ 8 < 2 ^ 8 * 2 ^ 8 := by norm_num; omega
    calc b * 2 ^ 8 < 2 ^ 8 * 2 ^ 8 := this
    _ = 2 ^ 16 := by norm_num
  have h2 : a * 2 ^ 16 + b * 2 ^ 8 = 2 ^ 8 * (2 ^ 8 * a + b) := by ring
  have h3 : (a * 2 ^ 16 + b * 2 ^ 8) ||| r = a * 2 ^ 16 + b * 2 ^ 8 + r := by
    rw [h2]
    refine (Nat.mul_add_lt_is_or ?_ _).symm
    norm_num
    omega
  rw [h1, h3]
  norm_num

theorem flipBit_length (msg : List ℕ) (k : ℕ) : (flipBit msg k).length = msg.length := by
  unfold flipBit
  simp

theorem flipBit_bytes_lt (msg : List ℕ) (k : ℕ) (h : ∀ b ∈ msg, b < 256) :
    ∀ b ∈ flipBit msg k, b < 256 := by
  intro b hb
  unfold flipBit at hb
  rcases List.mem_or_eq_of_mem_set hb with hmem | heq
  · exact h b hmem
  · subst heq
    refine Nat.xor_lt_two_pow (n := 8) ?_ ?_
    · rcases Nat.lt_or_ge (k / 8) msg.length with hl | hl
      · have : msg.getD (k / 8) 0 ∈ msg := by
          rw [List.getD_eq_getElem?_getD, List.getElem?_eq_getElem hl]
          exact List.getElem_mem hl
        exact h _ this
      · rw [List.getD_eq_getElem?_getD, List.getElem?_eq_none (by omega)]
        norm_num
    · rw [Nat.one_shiftLeft]
      have : 7 - k % 8 < 8 := by omega
      calc 2 ^ (7 - k % 8) ≤ 2 ^ 7 := Nat.pow_le_pow_right (by norm_num) (by omega)
      _ < 2 ^ 8 := by norm_num

theorem getD_lt_of_bytes_lt (msg : List ℕ) (i : ℕ) (h : ∀ b ∈ msg, b < 256) :
    msg.getD i 0 < 256 := by
  rcases Nat.lt_or_ge i msg.length with hl | hl
  · have : msg.getD i 0 ∈ msg := by
      rw [List.getD_eq_getElem?_getD, List.getElem?_eq_getElem hl]
      exact List.getElem_mem hl
    exact h _ this
  · rw [List.getD_eq_getElem?_getD, List.getElem?_eq_none (by omega)]
    norm_num

theorem xor_self_eq_iff (a t : ℕ) : a = a ^^^ t ↔ t = 0 := by
  constructor
  · intro h
    have := congrArg (fun x => a ^^^ x) h
    simpa [← Nat.xor_assoc] using this.symm
  · intro h
    simp [h]

/-- No single bit flip of a CRC-passing frame passes the CRC check again:
flipping a data bit changes the computed checksum by a nonzero table entry
while leaving the trailing field alone, and flipping a trailing bit changes
the trailing field while leaving the computed checksum alone. -/
theorem no_flip_of_passing (msg : List ℕ) (bits : ℕ)
    (hbits : bits = 56 ∨ bits = 112) (hlen : msg.length = bits / 8)
    (hbytes : ∀ b ∈ msg, b < 256) (hpass : modeS_check msg bits = true) :
    ∀ k < bits, modeS_check (flipBit msg k) bits = false := by
  intro k hk
  have hpass' : crc_trailing msg bits = modeS_checksum msg bits := by
    simpa [modeS_check] using hpass
  have hk8 : k / 8 < msg.length := by rcases hbits with h | h <;> subst h <;> omega
  have hxor := checksum_flip msg bits k hk hk8
  rcases Nat.lt_or_ge k (bits - 24) with hdata | htail
  · -- data-region flip: trailing unchanged, checksum moves by a nonzero entry
    have htr : crc_trailing (flipBit msg k) bits = crc_trailing msg bits := by
      unfold crc_trailing flipBit
      rw [getD_set_other _ _ _ _ (by rcases hbits with h | h <;> subst h <;> omega),
          getD_set_other _ _ _ _ (by rcases hbits with h | h <;> subst h <;> omega),
          getD_set_other _ _ _ _ (by rcases hbits with h | h <;> subst h <;> omega)]
    have hnz : modeS_checksum_table (k + checksum_offset bits) ≠ 0 := by
      apply table_head_nonzero
      rcases hbits with h | h <;> subst h <;>
        unfold checksum_offset MODES_LONG_MSG_BITS MODES_SHORT_MSG_BITS <;> norm_num <;> omega
    unfold modeS_check
    rw [htr, hxor, hpass']
    simp only [beq_eq_false_iff_ne, ne_eq]
    rw [xor_self_eq_iff]
    exact hnz
  · -- trailing-region flip: checksum unchanged, trailing field moves
    have hz : modeS_checksum_table (k + checksum_offset bits) = 0 := by
      apply table_tail_zero
      · rcases hbits with h | h <;> subst h <;>
          unfold checksum_offset MODES_LONG_MSG_BITS MODES_SHORT_MSG_BITS <;> norm_num <;> omega
      · rcases hbits with h | h <;> subst h <;>
          unfold checksum_offset MODES_LONG_MSG_BITS MODES_SHORT_MSG_BITS <;> norm_num <;> omega
    have hcs : modeS_checksum (flipBit msg k) bits = modeS_checksum msg bits := by
      rw [hxor, hz, Nat.xor_zero]
    have htr : crc_trailing (flipBit msg k) bits ≠ crc_trailing msg bits := by
      have hbytes' := flipBit_bytes_lt msg k hbytes
      have d0 := getD_lt_of_bytes_lt msg (bits / 8 - 3) hbytes
      have d1 := getD_lt_of_bytes_lt msg (bits / 8 - 2) hbytes
      have d2 := getD_lt_of_bytes_lt msg (bits / 8 - 1) hbytes
      have e0 := getD_lt_of_bytes_lt (flipBit msg k) (bits / 8 - 3) hbytes'
      have e1 := getD_lt_of_bytes_lt (flipBit msg k) (bits / 8 - 2) hbytes'
      have e2 := getD_lt_of_bytes_lt (flipBit msg k) (bits / 8 - 1) hbytes'
      unfold crc_trailing
      rw [lor3_digits _ _ _ d1 d2, lor3_digits _ _ _ e1 e2]
      have hself : (flipBit msg k).getD (k / 8) 0 =
          msg.getD (k / 8) 0 ^^^ (1 <<< (7 - k % 8)) := by
        unfold flipBit
        exact getD_set_self_of_lt _ _ _ hk8
      have hdiff : (flipBit msg k).getD (k / 8) 0 ≠ msg.getD (k / 8) 0 := by
        rw [hself]
        intro hc
        have : (1 <<< (7 - k % 8) : ℕ) = 0 := by
          rw [← xor_self_eq_iff (msg.getD (k / 8) 0)]
          exact hc.symm
        rw [Nat.one_shiftLeft] at this
        exact absurd this (Nat.pos_iff_ne_zero.mp (Nat.two_pow_pos _))
      have hother : ∀ i, i ≠ k / 8 → (flipBit msg k).getD i 0 = msg.getD i 0 := by
        intro i hi
        unfold flipBit
        exact getD_set_other _ _ _ _ (Ne.symm hi)
      rcases hbits with h | h <;> subst h
      · -- bits = 56, trailing bytes 4, 5, 6
        have hcase : k / 8 = 4 ∨ k / 8 = 5 ∨ k / 8 = 6 := by omega
        intro hceq
        rcases hcase with h4 | h5 | h6
        · have u1 := hother 5 (by omega)
          have u2 := hother 6 (by omega)
          have u0 : (flipBit msg k).getD 4 0 ≠ msg.getD 4 0 := h4 ▸ hdiff
          norm_num at hceq u1 u2 u0 d0 d1 d2 e0 e1 e2
          omega
        · have u1 := hother 4 (by omega)
          have u2 := hother 6 (by omega)
          have u0 : (flipBit msg k).getD 5 0 ≠ msg.getD 5 0 := h5 ▸ hdiff
          norm_num at hceq u1 u2 u0 d0 d1 d2 e0 e1 e2
          omega
        · have u1 := hother 4 (by omega)
          have u2 := hother 5 (by omega)
          have u0 : (flipBit msg k).getD 6 0 ≠ msg.getD 6 0 := h6 ▸ hdiff
          norm_num at hceq u1 u2 u0 d0 d1 d2 e0 e1 e2
          omega
      · -- bits = 112, trailing bytes 11, 12, 13
        have hcase : k / 8 = 11 ∨ k / 8 = 12 ∨ k / 8 = 13 := by omega
        intro hceq
        rcases hcase with h4 | h5 | h6
        · have u1 := hother 12 (by omega)
          have u2 := hother 13 (by omega)
          have u0 : (flipBit msg k).getD 11 0 ≠ msg.getD 11 0 := h4 ▸ hdiff
          norm_num at hceq u1 u2 u0 d0 d1 d2 e0 e1 e2
          omega
        · have u1 := hother 11 (by omega)
          have u2 := hother 13 (by omega)
          have u0 : (flipBit msg k).getD 12 0 ≠ msg.getD 12 0 := h5 ▸ hdiff
          norm_num at hceq u1 u2 u0 d0 d1 d2 e0 e1 e2
          omega
        · have u1 := hother 11 (by omega)
          have u2 := hother 12 (by omega)
          have u0 : (flipBit msg k).getD 13 0 ≠ msg.getD 13 0 := h6 ▸ hdiff
          norm_num at hceq u1 u2 u0 d0 d1 d2 e0 e1 e2
          omega
    unfold modeS_check
    rw [hcs]
    simp only [beq_eq_false_iff_ne, ne_eq]
    intro hc
    exact htr (hc.trans hpass'.symm)

/-- Claim C4, corrected.  If a first `fix_single_bit_errors` call on a 7- or
14-byte frame returns an index ≥ 0 (rewriting the buffer), a second call on
the resulting buffer returns -1 - not the same index - and leaves the buffer
unchanged: the corrected buffer passes the CRC check, and no single flip of a
CRC-passing buffer passes it again. -/
theorem C4_fix_single_second_call (msg : List ℕ) (bits : ℕ)
    (hbits : bits = 56 ∨ bits = 112) (hlen : msg.length = bits / 8)
    (hbytes : ∀ b ∈ msg, b < 256) (i : ℤ) (msg1 : List ℕ)
    (hfix : fix_single_bit_errors msg bits = (i, msg1)) (hi : 0 ≤ i) :
    fix_single_bit_errors msg1 bits = (-1, msg1) := by
  unfold fix_single_bit_errors at hfix ⊢
  rcases hfind : (List.range bits).find? (fun i => modeS_check (flipBit msg i) bits)
    with _ | i0
  · rw [hfind] at hfix
    simp only [Prod.mk.injEq] at hfix
    omega
  · rw [hfind] at hfix
    simp only [Prod.mk.injEq] at hfix
    obtain ⟨hi0, hmsg1⟩ := hfix
    have hcheck : modeS_check (flipBit msg i0) bits = true := by
      simpa using List.find?_some hfind
    have hmem : i0 < bits := by
      simpa [List.mem_range] using List.mem_of_find?_eq_some hfind
    have hlen1 : msg1.length = bits / 8 := by
      rw [← hmsg1, flipBit_length]
      exact hlen
    have hbytes1 : ∀ b ∈ msg1, b < 256 := by
      rw [← hmsg1]
      exact flipBit_bytes_lt msg i0 hbytes
    have hpass1 : modeS_check msg1 bits = true := by
      rw [← hmsg1]
      exact hcheck
    have hnone :
        (List.range bits).find? (fun k => modeS_check (flipBit msg1 k) bits) = none := by
      rw [List.find?_eq_none]
      intro k hkmem
      have hkbits : k < bits := List.mem_range.mp hkmem
      simp [no_flip_of_passing msg1 bits hbits hlen1 hbytes1 hpass1 k hkbits]
    rw [hnone]

/-- Counterexample to claim C4 as stated: on `DF11_valid` with bit 5 flipped,
the first `fix_single_bit_errors` call returns index 5 and rewrites the
buffer; the second call on the result returns -1, not the same index. -/
theorem C4_counterexample :
    fix_single_bit_errors DF11_flip5 56 = (5, DF11_valid) ∧
      fix_single_bit_errors DF11_valid 56 = (-1, DF11_valid) := by
  constructor <;> decide

/-- Witness for `C4_fix_single_second_call` at the concrete frame
`DF11_flip5`. -/
theorem C4_fix_single_second_call_witness :
    ((56 = 56 ∨ 56 = 112) ∧ DF11_flip5.length = 56 / 8 ∧ (∀ b ∈ DF11_flip5, b < 256) ∧
      fix_single_bit_errors DF11_flip5 56 = ((5 : ℤ), DF11_valid) ∧ (0 : ℤ) ≤ 5) ∧
    fix_single_bit_errors DF11_valid 56 = (-1, DF11_valid) :=
  ⟨⟨Or.inl rfl, by decide, by decide, by decide, by decide⟩,
   C4_fix_single_second_call DF11_flip5 56 (Or.inl rfl) (by decide) (by decide) 5 DF11_valid
     (by decide) (by decide)⟩

/-! ### C6: the ICAO cache slot index -/

/-- Claim C6, corrected.  Insertion and lookup do use one common slot index,
`ICAO_cache_hash_address`: after `ICAO_cache_add_address` writes `(addr, t)`,
a lookup for the same non-zero address within the TTL hits.  The index,
however, is not three full rounds of `((x >> 16) ^ x) * 0x45D9F3B`: the third
round of the source omits the multiplication (see `C6_counterexample`). -/
theorem C6_cache_slot_consistency (cache : ℕ → ℕ) (addr t now : ℕ) (h0 : addr ≠ 0)
    (h1 : (now : ℤ) - (t : ℤ) ≤ (MODES_ICAO_CACHE_TTL : ℤ)) :
    ICAO_address_recently_seen (ICAO_cache_add_address cache addr t) addr now = true := by
  unfold ICAO_address_recently_seen ICAO_cache_add_address
  have hne : 2 * ICAO_cache_hash_address addr + 1 ≠ 2 * ICAO_cache_hash_address addr := by
    omega
  simp [hne, h0, h1]

/-- Counterexample to claim C6 as stated: at the 24-bit address 1 the slot
index computed by the source (935) is not the value of three full
multiply rounds (125). -/
theorem C6_counterexample :
    ICAO_cache_hash_address 1 = 935 ∧ spec_hash_three_rounds 1 = 125 := by
  constructor <;> decide

/-- Witness for `C6_cache_slot_consistency` at address `0x4B9696`. -/
theorem C6_cache_slot_consistency_witness :
    ((0x4B9696 : ℕ) ≠ 0 ∧ ((130 : ℕ) : ℤ) - ((100 : ℕ) : ℤ) ≤ (MODES_ICAO_CACHE_TTL : ℤ)) ∧
    ICAO_address_recently_seen (ICAO_cache_add_address zeroCache 0x4B9696 100) 0x4B9696 130 =
      true :=
  ⟨⟨by decide, by decide⟩,
   C6_cache_slot_consistency zeroCache 0x4B9696 100 130 (by decide) (by decide)⟩

/-! ### C5: cache insertion on DF11/DF17 decode -/

set_option maxHeartbeats 1000000 in
/-- Claim C5, corrected.  The decoder inserts the message's ICAO address into
the recent-addresses cache exactly when the message is DF11 or DF17, its CRC
check passes, and `error_bit = -1` - that is, the CRC passed **without** any
single- or two-bit fix.  Messages repaired by a fix do not insert. -/
theorem C5_cache_insert_iff (msg : List ℕ) (aggressive : Bool) (cache : ℕ → ℕ) (now : ℕ) :
    (decode_modeS_message msg aggressive cache now).2 =
      if ((decode_modeS_message msg aggressive cache now).1.msg_type = 11 ∨
          (decode_modeS_message msg aggressive cache now).1.msg_type = 17) ∧
         (decode_modeS_message msg aggressive cache now).1.CRC_ok = true ∧
         (decode_modeS_message msg aggressive cache now).1.error_bit = -1 then
        some (aircraft_get_addr
          ((decode_modeS_message msg aggressive cache now).1.AA0)
          ((decode_modeS_message msg aggressive cache now).1.AA1)
          ((decode_modeS_message msg aggressive cache now).1.AA2))
      else none := by
  simp only [decode_modeS_message]
  by_cases h1117 : (msg.getD 0 0 >>> 3) ≠ 11 ∧ (msg.getD 0 0 >>> 3) ≠ 17
  · have h1 : msg[0]?.getD 0 >>> 3 ≠ 11 := by simpa using h1117.1
    have h2 : msg[0]?.getD 0 >>> 3 ≠ 17 := by simpa using h1117.2
    simp only [if_pos h1117, if_neg h1117.2]
    rcases hbf : brute_force_AP (decode_fix_stage msg (msg.getD 0 0 >>> 3)
        (modeS_message_len_by_type (msg.getD 0 0 >>> 3))
        (crc_trailing msg (modeS_message_len_by_type (msg.getD 0 0 >>> 3)))
        (crc_trailing msg (modeS_message_len_by_type (msg.getD 0 0 >>> 3)) ==
          modeS_checksum msg (modeS_message_len_by_type (msg.getD 0 0 >>> 3))) aggressive).1
        (msg.getD 0 0 >>> 3) (modeS_message_len_by_type (msg.getD 0 0 >>> 3)) cache now
      with _ | aa <;>
      simp [hbf, h1, h2]
  · have hor : (msg.getD 0 0 >>> 3) = 11 ∨ (msg.getD 0 0 >>> 3) = 17 := by
      by_cases h11 : (msg.getD 0 0 >>> 3) = 11
      · exact Or.inl h11
      · right
        by_contra h17
        exact h1117 ⟨h11, h17⟩
    simp only [if_neg h1117]
    rcases hor with h | h
    · have h' : msg[0]?.getD 0 >>> 3 = 11 := by simpa using h
      simp [h', h]
    · have h' : msg[0]?.getD 0 >>> 3 = 17 := by simpa using h
      simp only [h, h']
      split_ifs <;> simp_all

/-- Counterexample to claim C5 as stated: decoding `DF11_flip5` passes the CRC
only after a single-bit fix (`error_bit = 5`), and inserts nothing into the
recent-addresses cache. -/
theorem C5_counterexample :
    (decode_modeS_message (pad14 DF11_flip5) false zeroCache 0).1.CRC_ok = true ∧
      (decode_modeS_message (pad14 DF11_flip5) false zeroCache 0).1.error_bit = 5 ∧
      (decode_modeS_message (pad14 DF11_flip5) false zeroCache 0).2 = none := by
  refine ⟨by decide, by decide, by decide⟩

/-! ### C1: conditions guarding the CPR position assignment -/

theorem decode_CPR_times (a : aircraft) :
    (decode_CPR a).even_CPR_time = a.even_CPR_time ∧
      (decode_CPR a).odd_CPR_time = a.odd_CPR_time ∧
      (decode_CPR a).even_CPR_lat = a.even_CPR_lat ∧
      (decode_CPR a).odd_CPR_lat = a.odd_CPR_lat := by
  unfold decode_CPR
  by_cases h : CPR_NL_func (CPR_rlat0 a) = CPR_NL_func (CPR_rlat1 a)
  · rw [if_neg (fun hn => hn h)]
    simp
  · rw [if_pos h]
    simp

theorem decode_CPR_pos_changed (a : aircraft)
    (h : (decode_CPR a).position ≠ a.position) :
    CPR_NL_func (CPR_rlat0 a) = CPR_NL_func (CPR_rlat1 a) := by
  by_cases hnl : CPR_NL_func (CPR_rlat0 a) ≠ CPR_NL_func (CPR_rlat1 a)
  · exfalso
    apply h
    unfold decode_CPR
    simp [hnl]
  · exact not_not.mp hnl

theorem CPR_rlat0_congr (x y : aircraft) (he : x.even_CPR_lat = y.even_CPR_lat)
    (ho : x.odd_CPR_lat = y.odd_CPR_lat) : CPR_rlat0 x = CPR_rlat0 y := by
  unfold CPR_rlat0 CPR_j
  rw [he, ho]

theorem CPR_rlat1_congr (x y : aircraft) (he : x.even_CPR_lat = y.even_CPR_lat)
    (ho : x.odd_CPR_lat = y.odd_CPR_lat) : CPR_rlat1 x = CPR_rlat1 y := by
  unfold CPR_rlat1 CPR_j
  rw [he, ho]

theorem C1_core (A a1 : aircraft)
    (hg : ((A.even_CPR_time : ℤ) - (A.odd_CPR_time : ℤ)).natAbs ≤ 60 * 10 * 1000)
    (hd : decode_CPR A = a1) (hp : a1.position ≠ A.position) :
    ((a1.even_CPR_time : ℤ) - (a1.odd_CPR_time : ℤ)).natAbs ≤ 60 * 10 * 1000 ∧
      CPR_NL_func (CPR_rlat0 a1) = CPR_NL_func (CPR_rlat1 a1) := by
  subst hd
  obtain ⟨he, ho, hel, hol⟩ := decode_CPR_times A
  refine ⟨by rw [he, ho]; exact hg, ?_⟩
  have hnl := decode_CPR_pos_changed A hp
  rw [CPR_rlat0_congr _ A hel hol, CPR_rlat1_congr _ A hel hol]
  exact hnl

/-- Claim C1, corrected.  Whenever a received message changes the stored
position, the updated record's even and odd CPR tick-times lie within 10
minutes of each other and the NL values of the two candidate latitudes
agree.  Presence of both fixes is not itself checked by the code: a missing
fix has tick-time 0, so the time window implies both fixes are present only
once the tick clock exceeds 10 minutes (see `C1_counterexample`). -/
theorem C1_position_guard (a : aircraft) (mm : modeS_message) (now : ℕ) (a1 : aircraft)
    (hrecv : interactive_receive_data a mm now = some a1)
    (hpos : a1.position ≠ a.position) :
    ((a1.even_CPR_time : ℤ) - (a1.odd_CPR_time : ℤ)).natAbs ≤ 60 * 10 * 1000 ∧
      CPR_NL_func (CPR_rlat0 a1) = CPR_NL_func (CPR_rlat1 a1) := by
  unfold interactive_receive_data at hrecv
  split at hrecv
  · exact absurd hrecv (by simp)
  · simp only [Option.some.injEq] at hrecv
    repeat' split at hrecv
    all_goals
      first
        | (exfalso; apply hpos; rw [← hrecv]; done)
        | exact C1_core _ a1 (by assumption) hrecv hpos

/-- Counterexample to claim C1 as stated: a freshly created record (odd CPR
tick-time 0, no odd fix ever received, position unset) receiving one even
airborne-position frame at tick-time 300000 ms (five minutes) gets a decoded
position assigned, although no odd CPR fix is present. -/
theorem C1_counterexample :
    (aircraft_find_or_create_new 0xAA4411 300000).position = none ∧
      (aircraft_find_or_create_new 0xAA4411 300000).odd_CPR_time = 0 ∧
      (aircraft_find_or_create_new 0xAA4411 300000).messages = 0 ∧
      mmEvenPos.odd_flag = false ∧
      (interactive_receive_data (aircraft_find_or_create_new 0xAA4411 300000) mmEvenPos 300000).map (fun x => x.position.isSome) = some true :=
  ⟨rfl, rfl, rfl, rfl, by with_unfolding_all decide⟩

set_option maxRecDepth 4000 in
/-- Witness for `C1_position_guard` at the concrete even-frame scenario. -/
theorem C1_position_guard_witness :
    ((interactive_receive_data (aircraft_find_or_create_new 0xAA4411 300000) mmEvenPos 300000).isSome = true ∧
      ((interactive_receive_data (aircraft_find_or_create_new 0xAA4411 300000) mmEvenPos 300000).getD default).position ≠
        (aircraft_find_or_create_new 0xAA4411 300000).position) ∧
    (((((interactive_receive_data (aircraft_find_or_create_new 0xAA4411 300000) mmEvenPos 300000).getD default).even_CPR_time : ℤ) -
        (((interactive_receive_data (aircraft_find_or_create_new 0xAA4411 300000) mmEvenPos 300000).getD default).odd_CPR_time : ℤ)).natAbs ≤ 60 * 10 * 1000 ∧
      CPR_NL_func (CPR_rlat0 ((interactive_receive_data (aircraft_find_or_create_new 0xAA4411 300000) mmEvenPos 300000).getD default)) =
        CPR_NL_func (CPR_rlat1 ((interactive_receive_data (aircraft_find_or_create_new 0xAA4411 300000) mmEvenPos 300000).getD default))) :=
  ⟨⟨by with_unfolding_all decide, by with_unfolding_all decide⟩,
   C1_position_guard (aircraft_find_or_create_new 0xAA4411 300000) mmEvenPos 300000
     ((interactive_receive_data (aircraft_find_or_create_new 0xAA4411 300000) mmEvenPos 300000).getD default)
     (by
       have hsome : (interactive_receive_data (aircraft_find_or_create_new 0xAA4411 300000) mmEvenPos 300000).isSome = true := by with_unfolding_all decide
       obtain ⟨x, hx⟩ := Option.isSome_iff_exists.mp hsome
       simp [hx])
     (by with_unfolding_all decide)⟩

/-! ### C8: the stored flight callsign -/

theorem decode_flight_shape (frame : List ℕ) (aggressive : Bool) (cache : ℕ → ℕ) (tnow : ℕ) :
    ((decode_modeS_message frame aggressive cache tnow).1.flight =
        decodedFlight ((decode_modeS_message frame aggressive cache tnow).1.msg)) ∨
    ((decode_modeS_message frame aggressive cache tnow).1.flight = List.replicate 9 0 ∧
      ¬((decode_modeS_message frame aggressive cache tnow).1.msg_type = 17 ∧
        1 ≤ (decode_modeS_message frame aggressive cache tnow).1.ME_type ∧
        (decode_modeS_message frame aggressive cache tnow).1.ME_type ≤ 4)) := by
  simp only [decode_modeS_message]
  by_cases hdf : frame.getD 0 0 >>> 3 = 17
  · rw [if_pos hdf]
    by_cases hme : 1 ≤ (decode_fix_stage frame (frame.getD 0 0 >>> 3)
          (modeS_message_len_by_type (frame.getD 0 0 >>> 3))
          (crc_trailing frame (modeS_message_len_by_type (frame.getD 0 0 >>> 3)))
          (crc_trailing frame (modeS_message_len_by_type (frame.getD 0 0 >>> 3)) ==
            modeS_checksum frame (modeS_message_len_by_type (frame.getD 0 0 >>> 3)))
          aggressive).1.getD 4 0 >>> 3 ∧
        (decode_fix_stage frame (frame.getD 0 0 >>> 3)
          (modeS_message_len_by_type (frame.getD 0 0 >>> 3))
          (crc_trailing frame (modeS_message_len_by_type (frame.getD 0 0 >>> 3)))
          (crc_trailing frame (modeS_message_len_by_type (frame.getD 0 0 >>> 3)) ==
            modeS_checksum frame (modeS_message_len_by_type (frame.getD 0 0 >>> 3)))
          aggressive).1.getD 4 0 >>> 3 ≤ 4
    · rw [if_pos hme]
      exact Or.inl rfl
    · rw [if_neg hme]
      by_cases h918 : 9 ≤ (decode_fix_stage frame (frame.getD 0 0 >>> 3)
            (modeS_message_len_by_type (frame.getD 0 0 >>> 3))
            (crc_trailing frame (modeS_message_len_by_type (frame.getD 0 0 >>> 3)))
            (crc_trailing frame (modeS_message_len_by_type (frame.getD 0 0 >>> 3)) ==
              modeS_checksum frame (modeS_message_len_by_type (frame.getD 0 0 >>> 3)))
            aggressive).1.getD 4 0 >>> 3 ∧
          (decode_fix_stage frame (frame.getD 0 0 >>> 3)
            (modeS_message_len_by_type (frame.getD 0 0 >>> 3))
            (crc_trailing frame (modeS_message_len_by_type (frame.getD 0 0 >>> 3)))
            (crc_trailing frame (modeS_message_len_by_type (frame.getD 0 0 >>> 3)) ==
              modeS_checksum frame (modeS_message_len_by_type (frame.getD 0 0 >>> 3)))
            aggressive).1.getD 4 0 >>> 3 ≤ 18
      · rw [if_pos h918]
        exact Or.inr ⟨rfl, fun hc => hme ⟨hc.2.1, hc.2.2⟩⟩
      · rw [if_neg h918]
        split
        · split
          · exact Or.inr ⟨rfl, fun hc => hme ⟨hc.2.1, hc.2.2⟩⟩
          · exact Or.inr ⟨rfl, fun hc => hme ⟨hc.2.1, hc.2.2⟩⟩
        · exact Or.inr ⟨rfl, fun hc => hme ⟨hc.2.1, hc.2.2⟩⟩
  · rw [if_neg hdf]
    exact Or.inr ⟨rfl, fun hc => hdf hc.1⟩

theorem trim_copy9_decodedFlight (m : List ℕ) :
    trim_from (copy9 (decodedFlight m)) 8 = decodedFlight m := by
  have hl : (decodedFlight m).length = 9 := by simp [decodedFlight]
  have hc : copy9 (decodedFlight m) = decodedFlight m := by
    unfold copy9
    rw [hl]
    simp [List.take_of_length_le (le_of_eq hl)]
  rw [hc]
  show trim_from (decodedFlight m) 8 = decodedFlight m
  unfold trim_from
  simp [decodedFlight]

theorem C8_flight_stored (frame : List ℕ) (aggressive : Bool) (cache : ℕ → ℕ) (tnow : ℕ)
    (a : aircraft) (now : ℕ) (a1 : aircraft)
    (hrecv : interactive_receive_data a
        (decode_modeS_message frame aggressive cache tnow).1 now = some a1)
    (h17 : (decode_modeS_message frame aggressive cache tnow).1.msg_type = 17)
    (h1 : 1 ≤ (decode_modeS_message frame aggressive cache tnow).1.ME_type)
    (h4 : (decode_modeS_message frame aggressive cache tnow).1.ME_type ≤ 4) :
    a1.flight = decodedFlight ((decode_modeS_message frame aggressive cache tnow).1.msg) := by
  rcases decode_flight_shape frame aggressive cache tnow with hsh | ⟨_, hns⟩
  · set mm := (decode_modeS_message frame aggressive cache tnow).1 with hmm
    unfold interactive_receive_data at hrecv
    split at hrecv
    · exact absurd hrecv (by simp)
    · simp only [Option.some.injEq] at hrecv
      have hn5 : ¬(mm.msg_type = 5 ∨ mm.msg_type = 21) := by omega
      have hn0 : ¬(mm.msg_type = 0 ∨ mm.msg_type = 4 ∨ mm.msg_type = 20) := by omega
      have hme : 1 ≤ mm.ME_type ∧ mm.ME_type ≤ 4 := ⟨h1, h4⟩
      rw [if_neg hn5] at hrecv
      rw [if_neg hn0] at hrecv
      repeat' split at hrecv
      all_goals rw [← hrecv]
      all_goals
        show trim_from (copy9 mm.flight) 8 = decodedFlight mm.msg
        rw [hsh, trim_copy9_decodedFlight]
  · exact absurd ⟨h17, h1, h4⟩ hns


set_option maxRecDepth 8000 in
/-- Counterexample to claim C8 as stated: the frame quoted by scenario S1
fails the CRC check (computed 0x7E5EEA, trailing field 0x482211, no single-bit
fix exists), so the tracker is never updated; its AIS callsign field would
read `JTA36XPG`, not `TC-ETV`. -/
theorem C8_counterexample :
    (decode_modeS_message S1_frame false zeroCache 0).1.CRC_ok = false ∧
      interactive_receive_data (aircraft_find_or_create_new 0x4B9696 0)
        (decode_modeS_message S1_frame false zeroCache 0).1 0 = none ∧
      decodedFlight S1_frame = [74, 84, 65, 51, 54, 88, 80, 71, 0] := by
  refine ⟨by decide, ?_, by decide⟩
  have h : (decode_modeS_message S1_frame false zeroCache 0).1.CRC_ok = false := by decide
  simp [interactive_receive_data, h]

set_option maxRecDepth 8000 in
/-- Witness for `C8_flight_stored`: the CRC-valid identification frame
`DF17_ident_ABC` stores the callsign `ABC` followed by five spaces - spaces
retained, since the trim loop starts at the NUL terminator. -/
theorem C8_flight_stored_witness :
    ((interactive_receive_data (aircraft_find_or_create_new 0x4B9696 0) (decode_modeS_message DF17_ident_ABC false zeroCache 0).1 7).isSome = true ∧
      (decode_modeS_message DF17_ident_ABC false zeroCache 0).1.msg_type = 17 ∧ 1 ≤ (decode_modeS_message DF17_ident_ABC false zeroCache 0).1.ME_type ∧ (decode_modeS_message DF17_ident_ABC false zeroCache 0).1.ME_type ≤ 4) ∧
    (((interactive_receive_data (aircraft_find_or_create_new 0x4B9696 0) (decode_modeS_message DF17_ident_ABC false zeroCache 0).1 7).getD default).flight = decodedFlight ((decode_modeS_message DF17_ident_ABC false zeroCache 0).1.msg) ∧
      decodedFlight ((decode_modeS_message DF17_ident_ABC false zeroCache 0).1.msg) = [65, 66, 67, 32, 32, 32, 32, 32, 0]) :=
  ⟨⟨by decide, by decide, by decide, by decide⟩,
   C8_flight_stored DF17_ident_ABC false zeroCache 0 (aircraft_find_or_create_new 0x4B9696 0) 7
     ((interactive_receive_data (aircraft_find_or_create_new 0x4B9696 0) (decode_modeS_message DF17_ident_ABC false zeroCache 0).1 7).getD default)
     (by
       have hsome : (interactive_receive_data (aircraft_find_or_create_new 0x4B9696 0) (decode_modeS_message DF17_ident_ABC false zeroCache 0).1 7).isSome = true := by decide
       obtain ⟨x, hx⟩ := Option.isSome_iff_exists.mp hsome
       simp [hx])
     (by decide) (by decide) (by decide),
   by decide⟩

/-! ### C3: the magnitude lookup table -/

/-- Rounded square root of a natural, bridged to the executable form:
`round (sqrt x) = (Nat.sqrt (4*x) + 1) / 2`. -/
theorem round_sqrt_nat (x : ℕ) :
    round (Real.sqrt x) = (((Nat.sqrt (4 * x) + 1) / 2 : ℕ) : ℤ) := by
  have h4 : Real.sqrt ((4 * x : ℕ) : ℝ) = 2 * Real.sqrt x := by
    push_cast
    rw [show ((4 : ℝ) * x) = 2 ^ 2 * x by ring,
      Real.sqrt_mul (by positivity) (x : ℝ), Real.sqrt_sq (by norm_num)]
  have key : Real.sqrt x + 1 / 2 = (Real.sqrt ((4 * x : ℕ) : ℝ) + 1) / 2 := by
    rw [h4]; ring
  have hnn : (0 : ℝ) ≤ (Real.sqrt ((4 * x : ℕ) : ℝ) + 1) / 2 := by positivity
  rw [round_eq, key, ← Int.natCast_floor_eq_floor hnn]
  congr 1
  rw [show ((2 : ℝ)) = ((2 : ℕ) : ℝ) by norm_num, Nat.floor_div_nat,
    Nat.floor_add_one (Real.sqrt_nonneg _), Real.nat_floor_real_sqrt_eq_nat_sqrt]

/-- The scaled magnitude `360 * sqrt (I^2 + Q^2)` as a square root of a natural. -/
theorem scaled_hypot_eq (I Q : ℕ) :
    360 * Real.sqrt ((I : ℝ) ^ 2 + (Q : ℝ) ^ 2) =
      Real.sqrt ((360 ^ 2 * (I ^ 2 + Q ^ 2) : ℕ) : ℝ) := by
  push_cast
  rw [show (129600 : ℝ) = 360 ^ 2 by norm_num,
    Real.sqrt_mul (by positivity) ((I : ℝ) ^ 2 + (Q : ℝ) ^ 2),
    Real.sqrt_sq (by norm_num)]

/-- C3: for I, Q in [0,128] the magnitude LUT entry at index `129*I + Q` is
exactly `round (360 * sqrt (I^2 + Q^2))`, and for 8-bit sample data the
magnitude mapper output at sample `k` is the LUT entry at
`129 * min |data[2k]-127| 128 + min |data[2k+1]-127| 128` (the min is the
identity there since an 8-bit byte is within distance 128 of 127). -/
theorem C3_magnitude_pipeline (I Q : ℕ) (hI : I ≤ 128) (hQ : Q ≤ 128)
    (data : List ℕ) (k : ℕ)
    (h0 : data.getD (2 * k) 0 < 256) (h1 : data.getD (2 * k + 1) 0 < 256) :
    ((magnitude_lut (129 * I + Q) : ℤ) =
        round (360 * Real.sqrt ((I : ℝ) ^ 2 + (Q : ℝ) ^ 2))) ∧
      compute_magnitude_vector data k =
        magnitude_lut (129 * min ((data.getD (2 * k) 0 : ℤ) - 127).natAbs 128 +
          min ((data.getD (2 * k + 1) 0 : ℤ) - 127).natAbs 128) := by
  constructor
  · have hdiv : (129 * I + Q) / 129 = I := by omega
    have hmod : (129 * I + Q) % 129 = Q := by omega
    rw [scaled_hypot_eq, round_sqrt_nat]
    unfold magnitude_lut
    rw [hdiv, hmod]
  · have e0 : min ((data.getD (2 * k) 0 : ℤ) - 127).natAbs 128 =
        ((data.getD (2 * k) 0 : ℤ) - 127).natAbs := by omega
    have e1 : min ((data.getD (2 * k + 1) 0 : ℤ) - 127).natAbs 128 =
        ((data.getD (2 * k + 1) 0 : ℤ) - 127).natAbs := by omega
    rw [e0, e1]
    rfl

/-- Witness for `C3_magnitude_pipeline` at I = 3, Q = 4 and the sample pair
(130, 131): the LUT entry is `round (360 * 5) = 1800`. -/
theorem C3_magnitude_pipeline_witness :
    ((3 ≤ 128 ∧ 4 ≤ 128) ∧
      ([130, 131].getD (2 * 0) 0 < 256 ∧ [130, 131].getD (2 * 0 + 1) 0 < 256)) ∧
    (((magnitude_lut (129 * 3 + 4) : ℤ) =
        round (360 * Real.sqrt (((3 : ℕ) : ℝ) ^ 2 + ((4 : ℕ) : ℝ) ^ 2))) ∧
      compute_magnitude_vector [130, 131] 0 =
        magnitude_lut (129 * min (((([130, 131] : List ℕ).getD (2 * 0) 0 : ℤ)) - 127).natAbs 128 +
          min (((([130, 131] : List ℕ).getD (2 * 0 + 1) 0 : ℤ)) - 127).natAbs 128)) ∧
    magnitude_lut (129 * 3 + 4) = 1800 := by
  have hmain := C3_magnitude_pipeline 3 4 (by decide) (by decide) [130, 131] 0
    (by decide) (by decide)
  refine ⟨⟨⟨by decide, by decide⟩, ⟨by decide, by decide⟩⟩, hmain, ?_⟩
  have h5 : Real.sqrt (((3 : ℕ) : ℝ) ^ 2 + ((4 : ℕ) : ℝ) ^ 2) = 5 := by
    rw [show (((3 : ℕ) : ℝ) ^ 2 + ((4 : ℕ) : ℝ) ^ 2) = 5 ^ 2 by norm_num]
    exact Real.sqrt_sq (by norm_num)
  have hr : round (360 * Real.sqrt (((3 : ℕ) : ℝ) ^ 2 + ((4 : ℕ) : ℝ) ^ 2)) = (1800 : ℤ) := by
    rw [h5, show ((360 : ℝ) * 5) = ((1800 : ℕ) : ℝ) by norm_num, round_natCast]
    norm_num
  have hz : (magnitude_lut (129 * 3 + 4) : ℤ) = 1800 := by rw [hmain.1, hr]
  exact_mod_cast hz

/-! ### C7: the scan-loop advance -/

/-- The decoder's stored bit length is computed from the first byte of the
incoming frame, before any error fix. -/
theorem decode_msg_bits (msg : List ℕ) (a : Bool) (c : ℕ → ℕ) (t : ℕ) :
    (decode_modeS_message msg a c t).1.msg_bits =
      modeS_message_len_by_type ((msg.getD 0 0) >>> 3) := by
  simp only [decode_modeS_message]
  split_ifs <;> rfl

/-- Every frame bit length is a multiple of 8 (112 or 56). -/
theorem len_by_type_eight (t : ℕ) :
    8 * (modeS_message_len_by_type t / 8) = modeS_message_len_by_type t := by
  unfold modeS_message_len_by_type
  split_ifs <;> rfl

/-- C7 (corrected): when the scan-loop iteration at index `j` accepts a
CRC-passing message, the next candidate is examined at
`j + 2*(MODES_PREAMBLE_US + msg_bits) + 1` — the preamble term is
`MODES_PREAMBLE_US = 8`, not 16, and the loop increment adds one more; in
every other case the next index is `j + 1`, except the phase-correction retry
(first failure of a candidate), which re-examines the same `j`. -/
theorem C7_scan_advance (m : ℕ → ℕ) (mlen j : ℕ) (uc aggressive : Bool)
    (cache : ℕ → ℕ) (tnow : ℕ) :
    (∀ mm, (scanStep m mlen j uc aggressive cache tnow).accepted = some mm →
        (scanStep m mlen j uc aggressive cache tnow).next_j =
          j + 2 * (MODES_PREAMBLE_US + mm.msg_bits) + 1) ∧
    ((scanStep m mlen j uc aggressive cache tnow).accepted = none →
        ((scanStep m mlen j uc aggressive cache tnow).next_j = j + 1 ∧
            (scanStep m mlen j uc aggressive cache tnow).next_uc = false) ∨
          ((scanStep m mlen j uc aggressive cache tnow).next_j = j ∧
            (scanStep m mlen j uc aggressive cache tnow).next_uc = true ∧ uc = false)) := by
  constructor
  · intro mm hmm
    simp only [scanStep] at hmm ⊢
    split_ifs at hmm ⊢ with h1 h2 h3 h4 h5 <;>
      first
        | exact Option.noConfusion hmm
        | (rw [Option.some.injEq] at hmm
           rw [← hmm]
           simp [decode_msg_bits, len_by_type_eight])
  · intro hnone
    simp only [scanStep] at hnone ⊢
    split_ifs at hnone ⊢ with h1 h2 h3 h4 h5 <;>
      first
        | exact Option.noConfusion hnone
        | (left; exact ⟨rfl, by simp_all⟩)
        | (right; refine ⟨rfl, rfl, ?_⟩; simp_all)
        | (left; exact ⟨rfl, rfl⟩)

set_option maxRecDepth 8000 in
/-- Counterexample to claim C7 as stated: on the synthetic buffer `demodBuf`
the candidate at `j = 0` is accepted as a 7-byte (56-bit) DF11 message, yet
the next examined index is `2*(8 + 56) + 1 = 129`, not the spec's
`2*(16 + 8*7) = 144`; and on `demodBufBad` the first pass at `j = 0` passes
the preamble but fails the CRC, so the loop retries the same index with phase
correction - an advance of 0, not 1. -/
theorem C7_counterexample :
    ((scanStep demodBuf 240 0 false false zeroCache 0).accepted.isSome = true ∧
      (scanStep demodBuf 240 0 false false zeroCache 0).next_j = 129 ∧
      (129 : ℕ) ≠ 2 * (16 + 8 * 7)) ∧
    ((scanStep demodBufBad 240 0 false false zeroCache 0).accepted.isSome = false ∧
      (scanStep demodBufBad 240 0 false false zeroCache 0).next_j = 0 ∧
      (scanStep demodBufBad 240 0 false false zeroCache 0).next_uc = true) :=
  ⟨⟨by decide, by decide, by decide⟩, ⟨by decide, by decide, by decide⟩⟩

set_option maxRecDepth 8000 in
/-- Witness for `C7_scan_advance`: the accepted candidate of `demodBuf` at
`j = 0` advances to `2*(8 + 56) + 1`; the all-zero buffer at `j = 5` fails
the preamble test and advances by one. -/
theorem C7_scan_advance_witness :
    ((scanStep demodBuf 240 0 false false zeroCache 0).accepted =
        some ((scanStep demodBuf 240 0 false false zeroCache 0).accepted.getD default) ∧
      (scanStep zeroBuf 240 5 false false zeroCache 0).accepted = none) ∧
    ((scanStep demodBuf 240 0 false false zeroCache 0).next_j =
        0 + 2 * (MODES_PREAMBLE_US +
          ((scanStep demodBuf 240 0 false false zeroCache 0).accepted.getD default).msg_bits) + 1 ∧
      (((scanStep zeroBuf 240 5 false false zeroCache 0).next_j = 5 + 1 ∧
          (scanStep zeroBuf 240 5 false false zeroCache 0).next_uc = false) ∨
        ((scanStep zeroBuf 240 5 false false zeroCache 0).next_j = 5 ∧
          (scanStep zeroBuf 240 5 false false zeroCache 0).next_uc = true ∧ false = false))) := by
  have hsome : (scanStep demodBuf 240 0 false false zeroCache 0).accepted.isSome = true := by
    decide
  obtain ⟨x, hx⟩ := Option.isSome_iff_exists.mp hsome
  have hb : (scanStep zeroBuf 240 5 false false zeroCache 0).accepted.isSome = false := by
    decide
  have hnone : (scanStep zeroBuf 240 5 false false zeroCache 0).accepted = none :=
    Option.not_isSome_iff_eq_none.mp (by simp [hb])
  refine ⟨⟨by rw [hx]; rfl, hnone⟩, ?_, ?_⟩
  · have h1 := (C7_scan_advance demodBuf 240 0 false false zeroCache 0).1 x hx
    rw [hx]
    simpa using h1
  · exact (C7_scan_advance zeroBuf 240 5 false false zeroCache 0).2 hnone

/-! ### C9: the phase-correction window restore -/

/-- `phase_step` writes only the magnitude sample at index `j + 16 + i + 2`. -/
theorem phase_step_ne (j : ℕ) (m : ℕ → ℕ) (i k : ℕ) (h : k ≠ j + 16 + i + 2) :
    phase_step j m i k = m k := by
  unfold phase_step bufSet
  split_ifs <;> simp_all

/-- The phase-correction fold touches no sample outside the aux window
`[j+16, j+16+224)` as long as every loop counter stays below 111. -/
theorem foldl_phase_outside (j k : ℕ) (l : List ℕ) (m : ℕ → ℕ)
    (h : k < j + 16 ∨ j + 16 + 2 * MODES_LONG_MSG_BITS ≤ k)
    (hl : ∀ i ∈ l, i < MODES_LONG_MSG_BITS - 1) :
    (l.foldl (fun cur i => phase_step j cur (2 * i)) m) k = m k := by
  induction l generalizing m with
  | nil => rfl
  | cons a t ih =>
      have ha : a < MODES_LONG_MSG_BITS - 1 := hl a (by simp)
      have hL : MODES_LONG_MSG_BITS = 112 := rfl
      rw [List.foldl_cons, ih (phase_step j m (2 * a)) (fun i hi => hl i (by simp [hi]))]
      exact phase_step_ne j m (2 * a) k (by omega)

/-- `apply_phase_correction` changes no sample outside the 224-sample window
`[j+16, j+240)` saved in `aux`. -/
theorem apply_phase_correction_outside (m : ℕ → ℕ) (j k : ℕ)
    (h : k < j + 16 ∨ j + 16 + 2 * MODES_LONG_MSG_BITS ≤ k) :
    apply_phase_correction m j k = m k := by
  unfold apply_phase_correction
  exact foldl_phase_outside j k _ m h (fun i hi => List.mem_range.mp hi)

attribute [irreducible] apply_phase_correction

/-- C9 (confirmed): after a scan-loop iteration the magnitude buffer seen by
the next iteration equals the incoming buffer at every index: the phase
correction only rewrites samples inside the 224-sample window saved in `aux`,
and on a retry that window is copied back unconditionally before moving on. -/
theorem C9_window_restored (m : ℕ → ℕ) (mlen j : ℕ) (uc aggressive : Bool)
    (cache : ℕ → ℕ) (tnow : ℕ) (k : ℕ) :
    (scanStep m mlen j uc aggressive cache tnow).buffer k = m k := by
  have hrw : ∀ mc : ℕ → ℕ,
      (∀ k', k' < j + 16 ∨ j + 16 + 2 * MODES_LONG_MSG_BITS ≤ k' → mc k' = m k') →
      restore_window m mc j k = m k := by
    intro mc hmc
    unfold restore_window
    split_ifs with hw
    · rfl
    · exact hmc k (by omega)
  have happly : restore_window m (apply_phase_correction m j) j k = m k :=
    hrw (apply_phase_correction m j) (fun k' hk' => apply_phase_correction_outside m j k' hk')
  have hid : restore_window m m j k = m k := hrw m (fun k' hk' => rfl)
  simp only [scanStep]
  split_ifs with h1 h2 h3 h4 h5
  all_goals first | rfl | exact happly | exact hid

/-! ### C10: the bit-slicer error branch -/

/-- For every bit index after the first, the slicer's equal-magnitude error
branch is unreachable: `low = high` gives `delta = 0 < 256`, so the carry
rule fires first. -/
theorem sliceErrBranch_pos (mc : ℕ → ℕ) (j b : ℕ) (hb : 0 < b) :
    sliceErrBranch mc j b = false := by
  cases b with
  | zero => omega
  | succ n =>
      unfold sliceErrBranch
      by_cases h : mc (j + 2 * (n + 1) + 2 * MODES_PREAMBLE_US) =
          mc (j + 2 * (n + 1) + 2 * MODES_PREAMBLE_US + 1)
      · have hd : sliceDelta mc j (n + 1) < 256 := by
          unfold sliceDelta
          rw [h]
          simp
        simp [hd]
      · simp [h]

/-- The slicer's error counter never exceeds 1: only bit index 0 can take the
error branch. -/
theorem sliceErrors_le_one (mc : ℕ → ℕ) (j n : ℕ) : sliceErrors mc j n ≤ 1 := by
  unfold sliceErrors
  induction n with
  | zero => simp
  | succ n ih =>
      rw [List.range_succ, List.foldl_append, List.foldl_cons, List.foldl_nil]
      by_cases hn : n = 0
      · subst hn
        simp only [List.range_zero, List.foldl_nil]
        split_ifs <;> simp
      · rw [if_neg]
        · exact ih
        · intro hc
          have hfalse := sliceErrBranch_pos mc j n (Nat.pos_of_ne_zero hn)
          rw [hfalse] at hc
          exact absurd hc.1 (by simp)

/-- C10 (confirmed): for every bit index `b > 0` the equal-magnitude error
branch of the slicer is unreachable (the `delta < 256` carry rule takes
precedence, and `low = high` forces `delta = 0`), so for every magnitude
buffer the error counter is at most 1; consequently the aggressive-mode
allowance `errors <= 2` accepts exactly the candidates that the allowance
`errors <= 1` (a single first-bit error) accepts. -/
theorem C10_slicer_errors (mc : ℕ → ℕ) (j : ℕ) :
    (∀ b, 0 < b → sliceErrBranch mc j b = false) ∧
    sliceErrors mc j MODES_LONG_MSG_BITS ≤ 1 ∧
    (∀ aggressive : Bool,
      ((sliceErrors mc j MODES_LONG_MSG_BITS = 0 ∨
          (aggressive ∧ sliceErrors mc j MODES_LONG_MSG_BITS ≤ 2)) ↔
        (sliceErrors mc j MODES_LONG_MSG_BITS = 0 ∨
          (aggressive ∧ sliceErrors mc j MODES_LONG_MSG_BITS ≤ 1)))) := by
  refine ⟨fun b hb => sliceErrBranch_pos mc j b hb, sliceErrors_le_one mc j _, ?_⟩
  intro aggressive
  have h1 := sliceErrors_le_one mc j MODES_LONG_MSG_BITS
  constructor
  · rintro (h | ⟨ha, _⟩)
    · exact Or.inl h
    · exact Or.inr ⟨ha, h1⟩
  · rintro (h | ⟨ha, hb⟩)
    · exact Or.inl h
    · exact Or.inr ⟨ha, by omega⟩

/-- Witness for `C10_slicer_errors` on the synthetic buffer `demodBuf` at
candidate index 0, bit index 3, aggressive mode on. -/
theorem C10_slicer_errors_witness :
    (0 < 3 ∧ sliceErrBranch demodBuf 0 3 = false) ∧
    sliceErrors demodBuf 0 MODES_LONG_MSG_BITS ≤ 1 ∧
    ((sliceErrors demodBuf 0 MODES_LONG_MSG_BITS = 0 ∨
        (true ∧ sliceErrors demodBuf 0 MODES_LONG_MSG_BITS ≤ 2)) ↔
      (sliceErrors demodBuf 0 MODES_LONG_MSG_BITS = 0 ∨
        (true ∧ sliceErrors demodBuf 0 MODES_LONG_MSG_BITS ≤ 1))) :=
  ⟨⟨by decide, (C10_slicer_errors demodBuf 0).1 3 (by decide)⟩,
   (C10_slicer_errors demodBuf 0).2.1,
   (C10_slicer_errors demodBuf 0).2.2 true⟩

end Dump1090
